import Mathlib

/-!
Verification development for the ML_Scraping_Agents inventory pipeline.

This file gives a shallow embedding, in Lean 4, of the deterministic core of
the repository:

* `parsers.py` — identity extraction from permalinks (`extract_ids`),
  canonical channel-key derivation (`compute_channel_item_id`), the
  eligibility filter (`classify_filter`), the crawl-time enrichment decision
  (`compute_needs_enrichment`, pipeline version) and `assemble_card`;
* `export_sell_listings.py` — `extract_identity`,
  `compute_needs_enrichment` (export-time version), `transform_to_sell_listing`,
  `parse_channel_item_id`, `_query_existing_with_retry` and the
  `export_sell_listings` engine;
* `http_client.py` — `HttpClient.get_html_with_fallback`.

Modelling conventions:

* Python strings are Lean `String`s; scanning that the source performs with
  `re.search` / `re.match` is implemented by explicit leftmost-match scanners
  over `List Char` which reproduce the concrete patterns of the source
  (`/up/(MLMU\d+)`, `/p/(MLM\d+)`, `/MLM-(\d{6,15})`, `(MLM\d{6,15})`,
  greedy and leftmost, with a case-insensitivity flag mirroring
  `re.IGNORECASE` where the source sets it).  `\d` is modelled as the ASCII
  digits; the URLs the program consumes are ASCII.
* Python `dict`-shaped cards are a `Card` structure holding exactly the
  fields the embedded functions read; an absent key is `none`.  Python
  string falsiness (`x or y`) is modelled by `pyOrStr`/`pyOrQ` which treat
  `""` and `0` as falsy.
* Numeric prices are rationals (`ℚ`); the source's `float(...)` coercion on
  already-numeric values is the identity, and the embedding considers cards
  whose price fields are absent or numeric.
* Wall-clock reads (`datetime.now`) and network effects are passed in as
  explicit parameters (`now`, `today`, query/post oracles), making every
  embedded function pure and total.
* SHA-1 is implemented in full (padding, 80-round compression over
  `Nat % 2^32`, lowercase-hex digest), mirroring
  `hashlib.sha1(permalink.encode("utf-8")).hexdigest()`.
-/

/-! ## Basic string utilities (Python semantics) -/

/-- Python truthiness-based `or` on optional strings: `a or b` yields `b`
when `a` is absent or empty. -/
def pyOrStr (a b : Option String) : Option String :=
  match a with
  | some s => if s = "" then b else some s
  | none => b

/-- Python truthiness-based `or` on optional rationals: `a or b` yields `b`
when `a` is absent or zero (Python `0.0` is falsy). -/
def pyOrQ (a b : Option ℚ) : Option ℚ :=
  match a with
  | some q => if q = 0 then b else some q
  | none => b

/-- Python `str.strip()`: drop leading and trailing whitespace. -/
def pyStrip (s : String) : String :=
  String.mk (((s.data.dropWhile Char.isWhitespace).reverse.dropWhile Char.isWhitespace).reverse)

/-- Python `str.lower()` restricted to ASCII letters (the keyword sets and
URL literals of the source are ASCII). -/
def pyLower (s : String) : String := String.mk (s.data.map Char.toLower)

/-- Python truthiness of an optional string: present and non-empty. -/
def strTruthy (o : Option String) : Bool := o.getD "" ≠ ""

/-- Single-character comparison: `ci` selects case-insensitive comparison
(`re.IGNORECASE`). -/
def charEq (ci : Bool) (p c : Char) : Bool :=
  if ci then p.toLower = c.toLower else p = c

/-- Match a literal pattern at the head of the input, character by
character.  Returns the consumed input characters (original case) and the
rest. -/
def matchLit (ci : Bool) : List Char → List Char → Option (List Char × List Char)
  | [], s => some ([], s)
  | _ :: _, [] => none
  | p :: ps, c :: cs =>
    if charEq ci p c then
      match matchLit ci ps cs with
      | some (consumed, rest) => some (c :: consumed, rest)
      | none => none
    else none

/-- Leftmost-match scanner: try a positional matcher at every suffix, left
to right, returning the first capture (the semantics of `re.search`). -/
def searchCap (f : List Char → Option (List Char)) : List Char → Option (List Char)
  | [] => f []
  | s@(_ :: t) =>
    match f s with
    | some r => some r
    | none => searchCap f t

/-- Substring containment, Python `needle in hay` (case-sensitive). -/
def containsSub (needle hay : String) : Bool :=
  (searchCap (fun s => (matchLit false needle.data s).map Prod.fst) hay.data).isSome

/-- Positional matcher for `/up/(MLMU\d+)`: the capture is the matched
`MLMU` text followed by the maximal (greedy) digit run, at least one digit. -/
def upAt (ci : Bool) (s : List Char) : Option (List Char) :=
  match matchLit ci "/up/".data s with
  | none => none
  | some (_, r1) =>
    match matchLit ci "MLMU".data r1 with
    | none => none
    | some (c2, r2) =>
      if (r2.takeWhile Char.isDigit).isEmpty then none
      else some (c2 ++ r2.takeWhile Char.isDigit)

/-- Positional matcher for `/p/(MLM\d+)`. -/
def productAt (ci : Bool) (s : List Char) : Option (List Char) :=
  match matchLit ci "/p/".data s with
  | none => none
  | some (_, r1) =>
    match matchLit ci "MLM".data r1 with
    | none => none
    | some (c2, r2) =>
      if (r2.takeWhile Char.isDigit).isEmpty then none
      else some (c2 ++ r2.takeWhile Char.isDigit)

/-- Positional matcher for `/MLM-(\d{6,15})` (case-sensitive in both source
files): the capture is the digit group only, greedy up to 15 digits. -/
def articuloAt (s : List Char) : Option (List Char) :=
  match matchLit false "/MLM-".data s with
  | none => none
  | some (_, r1) =>
    if 6 ≤ (r1.takeWhile Char.isDigit).length then
      some ((r1.takeWhile Char.isDigit).take 15)
    else none

/-- Positional matcher for `(MLM\d{6,15})`: matched `MLM` text followed by
6–15 digits, greedy. -/
def itemAt (ci : Bool) (s : List Char) : Option (List Char) :=
  match matchLit ci "MLM".data s with
  | none => none
  | some (c1, r1) =>
    if 6 ≤ (r1.takeWhile Char.isDigit).length then
      some (c1 ++ (r1.takeWhile Char.isDigit).take 15)
    else none

/-- `re.search` of `/up/(MLMU\d+)` over a string. -/
def searchUp (ci : Bool) (s : String) : Option String :=
  (searchCap (upAt ci) s.data).map String.mk

/-- `re.search` of `/p/(MLM\d+)` over a string. -/
def searchProduct (ci : Bool) (s : String) : Option String :=
  (searchCap (productAt ci) s.data).map String.mk

/-- `re.search` of `/MLM-(\d{6,15})` over a string (digit group capture). -/
def searchArticulo (s : String) : Option String :=
  (searchCap articuloAt s.data).map String.mk

/-- `re.search` of `(MLM\d{6,15})` over a string. -/
def searchItem (ci : Bool) (s : String) : Option String :=
  (searchCap (itemAt ci) s.data).map String.mk

/-! ## URL query parsing (`urlparse` + `parse_qs`, restricted to the use in
`extract_ids`: first value of the `wid` parameter) -/

/-- Hex digit value of a character, if any. -/
def hexVal (c : Char) : Option Nat :=
  if '0' ≤ c ∧ c ≤ '9' then some (c.toNat - '0'.toNat)
  else if 'a' ≤ c ∧ c ≤ 'f' then some (c.toNat - 'a'.toNat + 10)
  else if 'A' ≤ c ∧ c ≤ 'F' then some (c.toNat - 'A'.toNat + 10)
  else none

/-- Percent-decoding as in `urllib.parse.unquote`, byte-for-byte (multibyte
UTF-8 sequences are decoded byte-wise here; the `wid` values the source
matches against `MLM\d{6,15}` are ASCII). Invalid escapes pass through. -/
def pctDecode : List Char → List Char
  | '%' :: a :: b :: rest =>
    match hexVal a, hexVal b with
    | some x, some y => Char.ofNat (16 * x + y) :: pctDecode rest
    | _, _ => '%' :: pctDecode (a :: b :: rest)
  | c :: rest => c :: pctDecode rest
  | [] => []

/-- `urllib.parse` value decoding: `+` to space, then percent-decoding. -/
def qsUnquote (s : List Char) : String :=
  String.mk (pctDecode (s.map fun c => if c = '+' then ' ' else c))

/-- `urlparse(pl).query`: strip the fragment at the first `#`, then take
what follows the first `?`. -/
def queryOf (pl : String) : List Char :=
  let beforeFrag := pl.data.takeWhile (· ≠ '#')
  ((beforeFrag.dropWhile (· ≠ '?')).drop 1)

/-- Split a list on a separator character. -/
def splitOnCh (sep : Char) : List Char → List (List Char)
  | [] => [[]]
  | c :: rest =>
    let r := splitOnCh sep rest
    if c = sep then [] :: r
    else
      match r with
      | h :: t => (c :: h) :: t
      | [] => [[c]]

/-- `parse_qs(query).get(key, [None])[0]`: the first `k=v` pair whose
decoded key matches and whose raw value is non-empty (blank values are
dropped by `parse_qs`), yielding the decoded value. -/
def parseQsFirst (q : List Char) (key : String) : Option String :=
  (splitOnCh '&' q).foldl
    (fun acc pair =>
      match acc with
      | some v => some v
      | none =>
        if pair.contains '=' then
          let k := pair.takeWhile (· ≠ '=')
          let v := (pair.dropWhile (· ≠ '=')).drop 1
          if qsUnquote k = key ∧ ¬ v.isEmpty then some (qsUnquote v) else none
        else none)
    none

/-! ## SHA-1 (`hashlib.sha1(... .encode("utf-8")).hexdigest()`) -/

/-- UTF-8 encoding of one code point. -/
def utf8EncodeChar (n : Nat) : List Nat :=
  if n < 0x80 then [n]
  else if n < 0x800 then [0xC0 + n / 64, 0x80 + n % 64]
  else if n < 0x10000 then [0xE0 + n / 4096, 0x80 + n / 64 % 64, 0x80 + n % 64]
  else [0xF0 + n / 0x40000, 0x80 + n / 4096 % 64, 0x80 + n / 64 % 64, 0x80 + n % 64]

/-- UTF-8 bytes of a string (`str.encode("utf-8")`). -/
def utf8Bytes (s : String) : List Nat := s.data.flatMap (fun c => utf8EncodeChar c.toNat)

/-- 32-bit left rotation on `Nat % 2^32`. -/
def rotl32 (k n : Nat) : Nat := ((n <<< k) % 2 ^ 32) ||| (n >>> (32 - k))

/-- SHA-1 message padding: `0x80`, zeros to 56 mod 64, 8-byte big-endian
bit length. -/
def sha1Pad (msg : List Nat) : List Nat :=
  let padLen := (64 - (msg.length + 9) % 64) % 64
  msg ++ [0x80] ++ List.replicate padLen 0 ++
    ((List.range 8).map fun i => msg.length * 8 / 256 ^ (7 - i) % 256)

/-- Split a byte list into 64-byte blocks. -/
def toBlocks : List Nat → List (List Nat)
  | [] => []
  | c :: rest => ((c :: rest).take 64) :: toBlocks ((c :: rest).drop 64)
  termination_by l => l.length
  decreasing_by simp [List.length_drop]; omega

/-- Big-endian 32-bit words of a 64-byte block. -/
def blockWords (b : List Nat) : List Nat :=
  (List.range 16).map fun i =>
    b.getD (4 * i) 0 * 0x1000000 + b.getD (4 * i + 1) 0 * 0x10000 +
      b.getD (4 * i + 2) 0 * 0x100 + b.getD (4 * i + 3) 0

/-- One step of the SHA-1 message-schedule extension. -/
def sha1ExtendStep (ws : List Nat) : List Nat :=
  let n := ws.length
  ws ++ [rotl32 1 ((ws.getD (n - 3) 0) ^^^ (ws.getD (n - 8) 0) ^^^
    (ws.getD (n - 14) 0) ^^^ (ws.getD (n - 16) 0))]

/-- SHA-1 round function and constant for round `i`. -/
def sha1FK (i b c d : Nat) : Nat × Nat :=
  if i < 20 then ((b &&& c) ||| ((2 ^ 32 - 1 - b) &&& d), 0x5A827999)
  else if i < 40 then (b ^^^ c ^^^ d, 0x6ED9EBA1)
  else if i < 60 then ((b &&& c) ||| (b &&& d) ||| (c &&& d), 0x8F1BBCDC)
  else (b ^^^ c ^^^ d, 0xCA62C1D6)

/-- SHA-1 compression of one block into the running state `(h0..h4)`. -/
def sha1Block (h : Nat × Nat × Nat × Nat × Nat) (block : List Nat) :
    Nat × Nat × Nat × Nat × Nat :=
  let ws := sha1ExtendStep^[64] (blockWords block)
  let (h0, h1, h2, h3, h4) := h
  let st := (List.range 80).foldl
    (fun (st : Nat × Nat × Nat × Nat × Nat) i =>
      let (a, b, c, d, e) := st
      let (f, k) := sha1FK i b c d
      let temp := (rotl32 5 a + f + e + k + ws.getD i 0) % 2 ^ 32
      (temp, a, rotl32 30 b, c, d))
    (h0, h1, h2, h3, h4)
  let (a, b, c, d, e) := st
  ((h0 + a) % 2 ^ 32, (h1 + b) % 2 ^ 32, (h2 + c) % 2 ^ 32,
    (h3 + d) % 2 ^ 32, (h4 + e) % 2 ^ 32)

/-- Lowercase hex digit. -/
def hexDigit (n : Nat) : Char :=
  if n < 10 then Char.ofNat ('0'.toNat + n) else Char.ofNat ('a'.toNat + n - 10)

/-- Fixed-width 8-digit lowercase hex of a 32-bit word. -/
def toHex8 (n : Nat) : List Char :=
  (List.range 8).map fun i => hexDigit (n / 16 ^ (7 - i) % 16)

/-- The final SHA-1 state `(h0, h1, h2, h3, h4)` for a string's UTF-8 bytes. -/
def sha1State (s : String) : Nat × Nat × Nat × Nat × Nat :=
  (toBlocks (sha1Pad (utf8Bytes s))).foldl sha1Block
    (0x67452301, 0xEFCDAB89, 0x98BADCFE, 0x10325476, 0xC3D2E1F0)

/-- `hashlib.sha1(s.encode("utf-8")).hexdigest()`: 40 lowercase hex chars. -/
def sha1Hex (s : String) : String :=
  String.mk (toHex8 (sha1State s).1 ++ toHex8 (sha1State s).2.1 ++
    toHex8 (sha1State s).2.2.1 ++ toHex8 (sha1State s).2.2.2.1 ++
    toHex8 (sha1State s).2.2.2.2)

theorem sha1Hex_length (s : String) : (sha1Hex s).length = 40 := by
  unfold sha1Hex
  simp [String.length, toHex8]

theorem sha1Hex_ne_empty (s : String) : sha1Hex s ≠ "" := by
  intro h
  have := sha1Hex_length s
  rw [h] at this
  simp [String.length] at this

/-! ## `parsers.py` — identity extraction and card assembly -/

/-- Result of `extract_ids` (parsers.py): the dictionary
`{item_id, product_id, up_id, is_catalog_product, is_up_product}`. -/
structure IdsOut where
  item_id : Option String := none
  product_id : Option String := none
  up_id : Option String := none
  is_catalog_product : Bool := false
  is_up_product : Bool := false
  deriving DecidableEq, Repr

/-- The five-shape check of `extract_ids` uses, in order: `UP_ID_RE`,
`PRODUCT_ID_RE`, `ARTICULO_ITEM_ID_RE`, `ITEM_ID_RE` (all case-sensitive in
parsers.py), then the `wid` query parameter matched by `ITEM_ID_RE.match`
(anchored at the start, full `wid` value kept). Each branch returns
immediately. -/
def extract_ids (permalink : String) : IdsOut :=
  if permalink = "" then {}
  else
    match searchUp false permalink with
    | some u => { up_id := some u, is_up_product := true }
    | none =>
      match searchProduct false permalink with
      | some p => { product_id := some p, is_catalog_product := true }
      | none =>
        match searchArticulo permalink with
        | some d => { item_id := some ("MLM" ++ d) }
        | none =>
          match searchItem false permalink with
          | some i => { item_id := some i }
          | none =>
            match parseQsFirst (queryOf permalink) "wid" with
            | some w => if (itemAt false w.data).isSome then { item_id := some w } else {}
            | none => {}

/-- `compute_channel_item_id` (parsers.py): priority
product_id → item_id → up_id → SHA1(permalink), with the source branch name. -/
def compute_channel_item_id (item_id product_id up_id : Option String)
    (permalink : String) : String × String :=
  if strTruthy product_id then (product_id.getD "", "product_id")
  else if strTruthy item_id then (item_id.getD "", "item_id")
  else if strTruthy up_id then (up_id.getD "", "up_id")
  else if permalink ≠ "" then (sha1Hex permalink, "hash")
  else ("", "hash")

/-- `REFURBISHED_KEYWORDS` (parsers.py). -/
def REFURBISHED_KEYWORDS : List String := ["reacondicionado", "reacondicionada"]

/-- `BUNDLE_KEYWORDS` (parsers.py). -/
def BUNDLE_KEYWORDS : List String :=
  ["de regalo", "+ airpods", "incluye airpods", "incluye airepods", "incluye regalo"]

/-- `LOCKED_KEYWORDS` (parsers.py). -/
def LOCKED_KEYWORDS : List String :=
  ["at&t", "telcel", "solo at&t", "solo telcel", "bloqueado", "locked"]

/-- `ACCESSORY_KEYWORDS` (parsers.py). -/
def ACCESSORY_KEYWORDS : List String :=
  ["funda", "case", "mica", "protector", "cargador", "cable",
   "auricular", "audifonos", "headset", "speaker", "bocina",
   "adaptador", "hub", "dock", "stylus", "lapiz", "pencil",
   "strap", "correa", "brazo", "mount", "soporte", "holder",
   "skin", "cover", "wraps", "film", "tempered glass"]

/-- Does any keyword of the set occur in the (already lowercased) title? -/
def anyKeywordIn (kws : List String) (title_lower : String) : Bool :=
  kws.any (fun kw => containsSub kw title_lower)

/-- Check 1 of `classify_filter`: `not title or len(title.strip()) < 3`. -/
def chkMissingTitle (title : String) : Bool :=
  decide (title = "" ∨ (pyStrip title).length < 3)

/-- Check 2 of `classify_filter`: `price_mxn is None or price_mxn <= 0`. -/
def chkMissingPrice (price_mxn : Option ℚ) : Bool :=
  decide (price_mxn = none ∨ price_mxn.getD 0 ≤ 0)

/-- Check 3 of `classify_filter`:
`not permalink or "mercadolibre" not in permalink.lower()`. -/
def chkInvalidUrl (permalink : String) : Bool :=
  decide (permalink = "" ∨ ¬ containsSub "mercadolibre" (pyLower permalink))

/-- A keyword check of `classify_filter`: fires when the toggle does not
allow the category and some keyword occurs in the lowercased title. -/
def chkKeyword (allowed : Bool) (kws : List String) (title : String) : Bool :=
  !allowed && anyKeywordIn kws (pyLower title)

/-- `classify_filter` (parsers.py): ordered business-rule checks, each
returning immediately with `(True, [reason])`; `(False, [])` when none
fire. -/
def classify_filter (title : String) (price_mxn : Option ℚ) (permalink : String)
    (allow_refurbished allow_bundles allow_locked : Bool) : Bool × List String :=
  if chkMissingTitle title then (true, ["missing_title"])
  else if chkMissingPrice price_mxn then (true, ["missing_price"])
  else if chkInvalidUrl permalink then (true, ["invalid_url"])
  else if chkKeyword allow_refurbished REFURBISHED_KEYWORDS title then
    (true, ["refurbished_not_allowed"])
  else if chkKeyword allow_bundles BUNDLE_KEYWORDS title then
    (true, ["bundle_not_allowed"])
  else if chkKeyword allow_locked LOCKED_KEYWORDS title then
    (true, ["carrier_locked_not_allowed"])
  else if anyKeywordIn ACCESSORY_KEYWORDS (pyLower title) then
    (true, ["accessory_only"])
  else (false, [])

/-- `compute_needs_enrichment` (parsers.py, the crawl-time pipeline gate):
any of the four rules true → needs enrichment. -/
def needs_enrichment_pipeline (item_id : Option String) (seller_id : Option Int)
    (is_catalog_product is_up_product : Bool) : Bool :=
  if item_id = none then true
  else if seller_id = none then true
  else if is_catalog_product then true
  else if is_up_product then true
  else false

/-! ## Card and attribute model -/

/-- A JSON-LD `brand` value: an object with a `name`, a bare string, or any
other JSON shape (which the source ignores). -/
inductive BrandVal
  | obj (name : Option String)
  | str (s : String)
  | other
  deriving DecidableEq, Repr

/-- The JSON-LD `aggregateRating` object (the two fields the source reads;
values are JSON numbers). -/
structure AggRating where
  ratingValue : Option ℚ := none
  ratingCount : Option ℚ := none
  deriving DecidableEq, Repr

/-- A JSON-LD block: the keys the source reads, plus a flag recording
whether the dict has any further keys (for Python truthiness of the dict). -/
structure Jsonld where
  brand : Option BrandVal := none
  aggregateRating : Option AggRating := none
  hasOtherKeys : Bool := false
  deriving DecidableEq, Repr

/-- Python truthiness of the `jsonld` dict: non-empty. -/
def Jsonld.truthy (j : Jsonld) : Bool :=
  j.brand.isSome || j.aggregateRating.isSome || j.hasOtherKeys

/-- The card's `attributes` dict (already parsed; the source also accepts a
JSON-encoded string form which it parses back to exactly such a dict). -/
structure AttrDict where
  jsonld : Option Jsonld := none
  hasOtherKeys : Bool := false
  deriving DecidableEq, Repr

/-- Python truthiness of the `attributes` dict: non-empty. -/
def AttrDict.truthy (a : AttrDict) : Bool := a.jsonld.isSome || a.hasOtherKeys

/-- A scraped/enriched card: exactly the dict keys the embedded functions
read, in the insertion order used when the source builds card dicts
(`assemble_card`, `parse_item_page`).  An absent key is `none`. -/
structure Card where
  permalink : Option String := none
  url : Option String := none
  item_url : Option String := none
  detail_url : Option String := none
  title : Option String := none
  item_id : Option String := none
  product_id : Option String := none
  up_id : Option String := none
  channel_item_id : Option String := none
  id_source : Option String := none
  seller_id : Option Int := none
  price_mxn : Option ℚ := none
  price : Option ℚ := none
  currency : Option String := none
  needs_enrichment : Option Bool := none
  filtered_out : Option Bool := none
  filtered_reasons : List String := []
  attributes : Option AttrDict := none
  pictures : Option (List String) := none
  condition : Option String := none
  brand : Option String := none
  captured_at_utc : Option String := none
  deriving DecidableEq, Repr

/-- `assemble_card` (parsers.py): run the three decision layers and merge
into one card, stripping the URL fragment in the stored permalink. -/
def assemble_card (permalink title : String) (price_mxn : Option ℚ)
    (currency : String) (seller_id : Option Int)
    (allow_refurbished allow_bundles allow_locked : Bool) : Card :=
  let ids := extract_ids permalink
  let ck := compute_channel_item_id ids.item_id ids.product_id ids.up_id permalink
  let ne := needs_enrichment_pipeline ids.item_id seller_id
    ids.is_catalog_product ids.is_up_product
  let fr := classify_filter title price_mxn permalink
    allow_refurbished allow_bundles allow_locked
  { permalink := some (String.mk (permalink.data.takeWhile (· ≠ '#'))),
    title := some title,
    item_id := ids.item_id,
    product_id := ids.product_id,
    up_id := ids.up_id,
    channel_item_id := some ck.1,
    id_source := some ck.2,
    seller_id := seller_id,
    price_mxn := price_mxn,
    currency := some currency,
    needs_enrichment := some ne,
    filtered_out := some fr.1,
    filtered_reasons := fr.2 }

/-! ## `export_sell_listings.py` — identity and transformation -/

/-- `x or None` on an optional string: an empty string becomes `None`. -/
def orNoneStr (a : Option String) : Option String :=
  match a with
  | some s => if s = "" then none else some s
  | none => none

/-- Python `str.upper()` restricted to ASCII letters. -/
def pyUpper (s : String) : String := String.mk (s.data.map Char.toUpper)

/-- Round-half-to-even to an integer (Python's `round` tie-breaking). -/
def roundHalfEven (x : ℚ) : ℤ :=
  let f := ⌊x⌋
  let r := x - f
  if r < 1 / 2 then f
  else if 1 / 2 < r then f + 1
  else if f % 2 = 0 then f else f + 1

/-- Python `round(x, digits)` on the exact rational value. -/
def pyRound (x : ℚ) (digits : ℕ) : ℚ :=
  (roundHalfEven (x * 10 ^ digits) : ℚ) / 10 ^ digits

/-- Python `int(x)`: truncation toward zero. -/
def pyInt (q : ℚ) : ℤ := q.num / (q.den : ℤ)

/-- Result of `extract_identity` (export_sell_listings.py). -/
structure Identity where
  product_id : Option String
  up_id : Option String
  item_id : Option String
  channel_item_id : String
  id_source : String
  deriving DecidableEq, Repr

/-- First half of `extract_identity`: the card's pre-computed id fields
(`card.get(..) or None`), with URL-based extraction as fallback when all
three are missing and a permalink is present.  The export-side regexes are
case-insensitive for the `/up/`, `/p/` and bare-item patterns and
case-sensitive for the dashed articulo pattern, exactly as in the source.
Returns `(product_id, up_id, item_id)`. -/
def identityFields (card : Card) : Option String × Option String × Option String :=
  let permalink := pyStrip (card.permalink.getD "")
  let product_id := orNoneStr card.product_id
  let up_id := orNoneStr card.up_id
  let item_id := orNoneStr card.item_id
  if product_id = none ∧ up_id = none ∧ item_id = none ∧ permalink ≠ "" then
    match searchUp true permalink with
    | some u => (product_id, some u, item_id)
    | none =>
      match searchProduct true permalink with
      | some p => (some p, up_id, item_id)
      | none =>
        match searchArticulo permalink with
        | some d => (product_id, up_id, some ("MLM" ++ d))
        | none =>
          match searchItem true permalink with
          | some i => (product_id, up_id, some i)
          | none => (product_id, up_id, item_id)
  else (product_id, up_id, item_id)

/-- The recompute branch of `extract_identity`: priority
product_id → up_id → item_id → SHA1(permalink) → `("", "hash")`. -/
def recomputeKey (product_id up_id item_id : Option String) (permalink : String) :
    String × String :=
  if strTruthy product_id then (product_id.getD "", "product_id")
  else if strTruthy up_id then (up_id.getD "", "up_id")
  else if strTruthy item_id then (item_id.getD "", "item_id")
  else if permalink ≠ "" then (sha1Hex permalink, "hash")
  else ("", "hash")

/-- The trust test of `extract_identity`: a pre-computed channel key is kept
when it is non-empty and the (stripped, `"hash"`-defaulted) `id_source` is
one of the four known values. -/
def trustsPrecomputed (card : Card) : Bool :=
  let pre_computed := pyStrip (card.channel_item_id.getD "")
  let pre_source := pyStrip ((pyOrStr card.id_source (some "hash")).getD "hash")
  pre_computed ≠ "" ∧ pre_source ∈ ["product_id", "up_id", "item_id", "hash"]

/-- `extract_identity` (export_sell_listings.py). -/
def extract_identity (card : Card) : Identity :=
  let permalink := pyStrip (card.permalink.getD "")
  let ids := identityFields card
  let pre_computed := pyStrip (card.channel_item_id.getD "")
  let pre_source := pyStrip ((pyOrStr card.id_source (some "hash")).getD "hash")
  let ck :=
    if pre_computed ≠ "" ∧ pre_source ∈ ["product_id", "up_id", "item_id", "hash"] then
      (pre_computed, pre_source)
    else recomputeKey ids.1 ids.2.1 ids.2.2 permalink
  { product_id := ids.1, up_id := ids.2.1, item_id := ids.2.2,
    channel_item_id := ck.1, id_source := ck.2 }

/-- `compute_needs_enrichment` (export_sell_listings.py, transform-time
gate): JSON-LD present → false; pipeline flag explicitly `False` → false;
any price present → false; otherwise true. -/
def compute_needs_enrichment (card : Card) : Bool :=
  if ((card.attributes.bind AttrDict.jsonld).map Jsonld.truthy).getD false then false
  else if card.needs_enrichment = some false then false
  else if (pyOrQ card.price_mxn card.price).isSome then false
  else true

/-- Skip-reason codes of export_sell_listings.py. -/
def SKIP_MISSING_IDENTITY : String := "missing_identity"

/-- Skip-reason code `missing_price`. -/
def SKIP_MISSING_PRICE : String := "missing_price"

/-- Skip-reason code `needs_enrichment_true`. -/
def SKIP_NEEDS_ENRICHMENT : String := "needs_enrichment_true"

/-- Skip-reason code `missing_permalink`. -/
def SKIP_MISSING_PERMALINK : String := "missing_permalink"

/-- Skip-reason code `invalid_currency`. -/
def SKIP_INVALID_CURRENCY : String := "invalid_currency"

/-- Skip-reason code `invalid_payload`. -/
def SKIP_INVALID_PAYLOAD : String := "invalid_payload"

/-- The six documented skip codes. -/
def skipCodes : List String :=
  [SKIP_MISSING_PERMALINK, SKIP_INVALID_PAYLOAD, SKIP_MISSING_PRICE,
   SKIP_INVALID_CURRENCY, SKIP_MISSING_IDENTITY, SKIP_NEEDS_ENRICHMENT]

/-- The wire record built by `transform_to_sell_listing` (the keys of the
`sell_listing` dict, in source order).  `action` is the integer upsert code;
`fulfillmentType`, `shippingTimeDays` and `unifiedProductId` are always
`None` in the source and are kept as constant fields. -/
structure SellListing where
  action : Nat
  channel : String
  market : String
  channelItemId : String
  title : String
  sellPriceOriginal : ℚ
  currencyOriginal : String
  sellPriceUsd : ℚ
  fxRateToUsd : ℚ
  fxAsOfDate : String
  listingTimestamp : String
  fulfillmentType : Option String
  shippingTimeDays : Option Nat
  rating : Option ℚ
  reviewsCount : Option ℤ
  unifiedProductId : Option ℤ
  itemId : Option String
  upId : Option String
  permalink : String
  image : Option String
  condition : Option String
  brand : Option String
  capturedAtUtc : String
  attributes : Option AttrDict
  deriving DecidableEq, Repr

/-- The URL-recognition test of the permalink-recovery scan in
`transform_to_sell_listing`: a string value containing `mercadolibre`
(lowercased) and one of `/MLM`, `/p/`, `/up/`. -/
def urlLike (s : String) : Bool :=
  containsSub "mercadolibre" (pyLower s) ∧
    (containsSub "/MLM" s ∨ containsSub "/p/" s ∨ containsSub "/up/" s)

/-- The permalink-recovery scan over the card's string-valued entries, in
the card's key order (Python dict insertion order, modelled by the declared
field order of `Card`); the first URL-like value is taken, stripped. -/
def scanUrlField (card : Card) : Option String :=
  [card.permalink, card.url, card.item_url, card.detail_url, card.title,
   card.item_id, card.product_id, card.up_id, card.channel_item_id,
   card.id_source, card.currency, card.condition, card.brand,
   card.captured_at_utc].foldl
    (fun acc v =>
      match acc with
      | some r => some r
      | none =>
        match v with
        | some s => if urlLike s then some (pyStrip s) else none
        | none => none)
    none

/-- The permalink resolution of `transform_to_sell_listing`: the
`permalink`/`url`/`item_url`/`detail_url` chain (Python `or`, then one
`strip`), falling back to the URL-like field scan. -/
def resolvePermalink (card : Card) : String :=
  let p := pyStrip ((pyOrStr (pyOrStr (pyOrStr card.permalink card.url)
    card.item_url) card.detail_url).getD "")
  if p = "" then (scanUrlField card).getD "" else p

/-- The channel-key fallback inside `transform_to_sell_listing`: when the
identity's key is empty and a permalink is available, re-extract with
`parsers.extract_ids` (priority product → up → item there), else SHA-1. -/
def transformKeyFallback (permalink : String) : String :=
  let ids := extract_ids permalink
  match ids.product_id with
  | some p => p
  | none =>
    match ids.up_id with
    | some u => u
    | none =>
      match ids.item_id with
      | some i => i
      | none => sha1Hex permalink

/-- The listing-timestamp normalization of `transform_to_sell_listing`:
`"...Z"` → drop every `Z`, `T` → space, append `".000000"` when no dot;
otherwise just `T` → space when a `T` occurs. -/
def sqlTimestamp (ts : String) : String :=
  if ts.data.getLast? = some 'Z' then
    let t := String.mk ((ts.data.filter (· ≠ 'Z')).map fun c => if c = 'T' then ' ' else c)
    if t.data.contains '.' then t else t ++ ".000000"
  else if ts.data.contains 'T' then
    String.mk (ts.data.map fun c => if c = 'T' then ' ' else c)
  else ts

/-- Brand resolution: the card's own `brand` field, else the JSON-LD
`brand` (object `name` or bare string). -/
def brandOf (card : Card) : Option String :=
  match orNoneStr card.brand with
  | some b => some b
  | none =>
    match card.attributes.bind AttrDict.jsonld with
    | some j =>
      match j.brand with
      | some (BrandVal.obj name) => name
      | some (BrandVal.str s) => some s
      | some BrandVal.other => none
      | none => none
    | none => none

/-- Rating and review-count extraction from the JSON-LD `aggregateRating`
(guarded by truthiness of the `attributes` dict, as in the source). -/
def ratingsOf (attrs : Option AttrDict) : Option ℚ × Option ℤ :=
  match attrs with
  | none => (none, none)
  | some a =>
    if a.truthy then
      match a.jsonld with
      | some j =>
        match j.aggregateRating with
        | some ag => (ag.ratingValue.map fun rv => pyRound rv 2,
                      ag.ratingCount.map fun rc => pyInt rc)
        | none => (none, none)
      | none => (none, none)
    else (none, none)

/-- `transform_to_sell_listing` (export_sell_listings.py).  The two
wall-clock reads of the source (`datetime.now` for `fxAsOfDate` and for the
`captured_at_utc` default) are the explicit parameters `today` and `now`.
Returns `(some listing, none)` on success and `(none, some code)` on
rejection. -/
def transform_to_sell_listing (now today : String) (card : Card) (fx_rate : ℚ) :
    Option SellListing × Option String :=
  let permalink := resolvePermalink card
  if permalink = "" then (none, some SKIP_MISSING_PERMALINK)
  else
    let title := pyStrip (card.title.getD "")
    if title = "" ∨ title.length < 3 then (none, some SKIP_INVALID_PAYLOAD)
    else
      match pyOrQ card.price_mxn card.price with
      | none => (none, some SKIP_MISSING_PRICE)
      | some price_mxn =>
        if price_mxn ≤ 0 then (none, some SKIP_MISSING_PRICE)
        else
          let currency := pyUpper ((pyOrStr card.currency (some "MXN")).getD "MXN")
          if currency ≠ "MXN" then (none, some SKIP_INVALID_CURRENCY)
          else
            let identity := extract_identity card
            let channel_item_id :=
              if identity.channel_item_id = "" ∧ permalink ≠ "" then
                transformKeyFallback permalink
              else identity.channel_item_id
            if channel_item_id = "" then (none, some SKIP_MISSING_IDENTITY)
            else if compute_needs_enrichment card then (none, some SKIP_NEEDS_ENRICHMENT)
            else
              let captured := (pyOrStr card.captured_at_utc (some now)).getD now
              (some {
                action := 1,
                channel := "mercadolibre",
                market := "MLM",
                channelItemId := channel_item_id,
                title := title,
                sellPriceOriginal := price_mxn,
                currencyOriginal := currency,
                sellPriceUsd := pyRound (price_mxn * fx_rate) 6,
                fxRateToUsd := fx_rate,
                fxAsOfDate := today,
                listingTimestamp := sqlTimestamp captured,
                fulfillmentType := none,
                shippingTimeDays := none,
                rating := (ratingsOf card.attributes).1,
                reviewsCount := (ratingsOf card.attributes).2,
                unifiedProductId := none,
                itemId := identity.item_id,
                upId := identity.up_id,
                permalink := permalink,
                image := (match card.pictures with | some l => l | none => []).head?,
                condition := orNoneStr card.condition,
                brand := brandOf card,
                capturedAtUtc := captured,
                attributes := card.attributes }, none)

/-- `parse_channel_item_id` (export_sell_listings.py): key from the URL by
priority catalog `/p/` → unified `/up/` → dashed articulo → bare item →
SHA-1, with the export-side case-insensitive patterns (articulo
case-sensitive), and `""` for an empty permalink. -/
def parse_channel_item_id (permalink : String) : String :=
  if permalink = "" then ""
  else
    match searchProduct true permalink with
    | some p => p
    | none =>
      match searchUp true permalink with
      | some u => u
      | none =>
        match searchArticulo permalink with
        | some d => "MLM" ++ d
        | none =>
          match searchItem true permalink with
          | some i => i
          | none => sha1Hex permalink

/-! ## `export_sell_listings.py` — the export engine -/

/-- A row of the backend's `sellListingsQuery` response (only the key the
source reads). -/
structure QueryRow where
  channelItemId : Option String := none
  deriving DecidableEq, Repr

/-- The backend's query response body (`data.get("sellListingsQuery", [])`). -/
structure QueryData where
  sellListingsQuery : Option (List QueryRow) := none
  deriving DecidableEq, Repr

/-- Dict-style counter increment (`skip_reasons[r] = skip_reasons.get(r,0)+1`),
preserving insertion order. -/
def incrCount (m : List (String × Nat)) (k : String) : List (String × Nat) :=
  if (m.lookup k).isSome then
    m.map fun p => if p.1 = k then (p.1, p.2 + 1) else p
  else m ++ [(k, 1)]

/-- Step 1 of `export_sell_listings`: transform every card, accumulating the
listings in order, the skip-reason histogram and the skipped count. -/
def transformAll (now today : String) (fx : ℚ) (cards : List Card) :
    List SellListing × List (String × Nat) × Nat :=
  cards.foldl
    (fun acc card =>
      let (listings, reasons, skipped) := acc
      match transform_to_sell_listing now today card fx with
      | (some l, _) => (listings ++ [l], reasons, skipped)
      | (none, r) =>
        (listings, incrCount reasons (r.getD SKIP_INVALID_PAYLOAD), skipped + 1))
    ([], [], 0)

/-- The retry loop of `_query_existing_with_retry`: `remaining` attempts
starting at attempt number `i`, tracking the last exception message; on
exhaustion, the `RuntimeError` of the source. -/
def queryRetryLoop (attempt : Nat → Except String QueryData) :
    Nat → Nat → Option String → Except String QueryData
  | _, 0, lastExc =>
    .error ("query_sell_listings failed after 5 attempts: " ++ lastExc.getD "None")
  | i, remaining + 1, _ =>
    match attempt i with
    | .ok d => .ok d
    | .error e => queryRetryLoop attempt (i + 1) remaining (some e)

/-- `_query_existing_with_retry` with its default `max_attempts = 5`; the
backoff sleeps between attempts do not affect the value. -/
def query_existing_with_retry (attempt : Nat → Except String QueryData) :
    Except String QueryData :=
  queryRetryLoop attempt 1 5 none

/-- Step 2's set comprehension:
`{r["channelItemId"] for r in rows if r.get("channelItemId")}` — the
distinct non-empty keys. -/
def existingIdsOf (data : QueryData) : List String :=
  ((data.sellListingsQuery.getD []).filterMap
    (fun r => match r.channelItemId with
      | some s => if s = "" then none else some s
      | none => none)).dedup

/-- Step 2 of `export_sell_listings`: the existing-key set and its size,
degrading to the empty set when the retried query raised. -/
def exportExistingIds (attempt : Nat → Except String QueryData) : List String × Nat :=
  match query_existing_with_retry attempt with
  | .ok data =>
    let ids := existingIdsOf data
    (ids, ids.length)
  | .error _ => ([], 0)

/-- Step 3 of `export_sell_listings`:
`[sl for sl in sell_listings if sl["channelItemId"] not in existing_ids]`. -/
def diffStep (existing_ids : List String) (sell_listings : List SellListing) :
    List SellListing :=
  sell_listings.filter fun sl => ¬ sl.channelItemId ∈ existing_ids

/-- The outcome dict of `export_sell_listings`. -/
structure ExportOutcome where
  ok : Bool
  as_of : String
  existing_count : Nat
  new_count : Nat
  skipped : Nat
  skip_reasons : List (String × Nat)
  deriving DecidableEq, Repr

/-- `export_sell_listings` (export_sell_listings.py), with the environment
made explicit: `now`/`today` are the wall-clock reads, `attempt` the
backend query oracle (one `Except` outcome per attempt number) and
`postResult` the outcome of the POST when one is made (`.error` models a
raised exception, which the source catches into `ok=False`). -/
def export_sell_listings (cards : List Card) (fx : ℚ) (now today : String)
    (attempt : Nat → Except String QueryData) (postResult : Except String Bool) :
    ExportOutcome :=
  let tr := transformAll now today fx cards
  let ex := exportExistingIds attempt
  let new_listings := diffStep ex.1 tr.1
  let ok :=
    if new_listings.isEmpty then true
    else match postResult with
      | .ok b => b
      | .error _ => false
  { ok := ok, as_of := now, existing_count := ex.2,
    new_count := new_listings.length, skipped := tr.2.2,
    skip_reasons := tr.2.1 }

/-! ## `http_client.py` — `get_html_with_fallback` -/

/-- One HTTP attempt's result: a status/body response, or a raised
`requests.RequestException` (timeouts, connection errors). -/
inductive FetchResult
  | resp (status : Nat) (body : String)
  | exc (msg : String)
  deriving DecidableEq, Repr

/-- The per-URL step of `get_html_with_fallback`: 200 → return the body;
404 → record `"404 for <url>"` and advance; any other 4xx/5xx →
`raise_for_status` raises, the handler records the message and advances;
a non-error non-200 status falls through the `if`/`elif`/`else` without
recording; a request exception is recorded and advances.  `none` = keep
going with the given last-error. -/
def fallbackStep (fetch : String → FetchResult) (u : String)
    (lastError : Option String) : Option String ⊕ String :=
  match fetch u with
  | .resp s body =>
    if s = 200 then .inr body
    else if s = 404 then .inl (some ("404 for " ++ u))
    else if 400 ≤ s ∧ s < 600 then
      .inl (some ("HTTP error " ++ toString s ++ " for url: " ++ u))
    else .inl lastError
  | .exc m => .inl (some m)

/-- The loop of `get_html_with_fallback` over the remaining URLs. -/
def fallbackLoop (fetch : String → FetchResult) :
    List String → Option String → Except String String
  | [], lastError =>
    .error ("Failed to fetch from any URL. Last error: " ++ lastError.getD "None")
  | u :: rest, lastError =>
    match fallbackStep fetch u lastError with
    | .inr body => .ok body
    | .inl le => fallbackLoop fetch rest le

/-- `HttpClient.get_html_with_fallback`: try the primary URL then each
fallback in order; `.error` models the final raised `HTTPError`. -/
def get_html_with_fallback (fetch : String → FetchResult) (url : String)
    (fallback_urls : List String) : Except String String :=
  fallbackLoop fetch (url :: fallback_urls) none

/-! ## Structural lemmas about the scanners -/

theorem matchLit_append (ci : Bool) :
    ∀ (pat s cons rest : List Char),
      matchLit ci pat s = some (cons, rest) → s = cons ++ rest := by
  intro pat
  induction pat with
  | nil =>
    intro s cons rest h
    simp [matchLit] at h
    simp [h.1, h.2]
  | cons p ps ih =>
    intro s cons rest h
    cases s with
    | nil => simp [matchLit] at h
    | cons c cs =>
      simp only [matchLit] at h
      split at h
      · cases hm : matchLit ci ps cs with
        | none => rw [hm] at h; simp at h
        | some pr =>
          obtain ⟨cons2, rest2⟩ := pr
          rw [hm] at h
          simp at h
          obtain ⟨h1, h2⟩ := h
          have h3 := ih cs cons2 rest2 hm
          rw [← h1, ← h2]
          simp [h3]
      · simp at h

theorem matchLit_length (ci : Bool) :
    ∀ (pat s cons rest : List Char),
      matchLit ci pat s = some (cons, rest) → cons.length = pat.length := by
  intro pat
  induction pat with
  | nil =>
    intro s cons rest h
    simp [matchLit] at h
    simp [h.1]
  | cons p ps ih =>
    intro s cons rest h
    cases s with
    | nil => simp [matchLit] at h
    | cons c cs =>
      simp only [matchLit] at h
      split at h
      · cases hm : matchLit ci ps cs with
        | none => rw [hm] at h; simp at h
        | some pr =>
          obtain ⟨cons2, rest2⟩ := pr
          rw [hm] at h
          simp at h
          obtain ⟨h1, h2⟩ := h
          rw [← h1]
          simp [ih cs cons2 rest2 hm]
      · simp at h

theorem searchCap_exists (f : List Char → Option (List Char)) :
    ∀ (s : List Char) (r : List Char),
      searchCap f s = some r → ∃ t, f t = some r := by
  intro s
  induction s with
  | nil => intro r h; exact ⟨[], by simpa [searchCap] using h⟩
  | cons c cs ih =>
    intro r h
    simp only [searchCap] at h
    cases hf : f (c :: cs) with
    | some v =>
      rw [hf] at h
      simp at h
      exact ⟨c :: cs, by rw [hf, h]⟩
    | none => rw [hf] at h; exact ih r h

theorem upAt_digit (ci : Bool) (s l : List Char) (h : upAt ci s = some l) :
    ∃ c ∈ l, c.isDigit = true := by
  unfold upAt at h
  cases hm1 : matchLit ci "/up/".data s with
  | none => rw [hm1] at h; simp at h
  | some pr =>
    obtain ⟨c1, r1⟩ := pr
    rw [hm1] at h
    dsimp only at h
    cases hm2 : matchLit ci "MLMU".data r1 with
    | none => rw [hm2] at h; simp at h
    | some pr2 =>
      obtain ⟨c2, r2⟩ := pr2
      rw [hm2] at h
      dsimp only at h
      split at h
      · simp at h
      · rename_i hne
        simp at h
        subst h
        have hne2 : r2.takeWhile Char.isDigit ≠ [] := by
          intro hnil
          rw [hnil] at hne
          simp at hne
        obtain ⟨d, hd⟩ := List.exists_mem_of_ne_nil _ hne2
        exact ⟨d, List.mem_append_right _ hd, List.mem_takeWhile_imp hd⟩

theorem productAt_digit (ci : Bool) (s l : List Char) (h : productAt ci s = some l) :
    ∃ c ∈ l, c.isDigit = true := by
  unfold productAt at h
  cases hm1 : matchLit ci "/p/".data s with
  | none => rw [hm1] at h; simp at h
  | some pr =>
    obtain ⟨c1, r1⟩ := pr
    rw [hm1] at h
    dsimp only at h
    cases hm2 : matchLit ci "MLM".data r1 with
    | none => rw [hm2] at h; simp at h
    | some pr2 =>
      obtain ⟨c2, r2⟩ := pr2
      rw [hm2] at h
      dsimp only at h
      split at h
      · simp at h
      · rename_i hne
        simp at h
        subst h
        have hne2 : r2.takeWhile Char.isDigit ≠ [] := by
          intro hnil
          rw [hnil] at hne
          simp at hne
        obtain ⟨d, hd⟩ := List.exists_mem_of_ne_nil _ hne2
        exact ⟨d, List.mem_append_right _ hd, List.mem_takeWhile_imp hd⟩

theorem articuloAt_digit (s l : List Char) (h : articuloAt s = some l) :
    ∃ c ∈ l, c.isDigit = true := by
  unfold articuloAt at h
  cases hm1 : matchLit false "/MLM-".data s with
  | none => rw [hm1] at h; simp at h
  | some pr =>
    obtain ⟨c1, r1⟩ := pr
    rw [hm1] at h
    dsimp only at h
    split at h
    · rename_i hlen
      simp at h
      subst h
      have hpos : 0 < ((r1.takeWhile Char.isDigit).take 15).length := by
        rw [List.length_take]
        omega
      have hne : (r1.takeWhile Char.isDigit).take 15 ≠ [] := List.length_pos.mp hpos
      obtain ⟨d, hd⟩ := List.exists_mem_of_ne_nil _ hne
      exact ⟨d, hd, List.mem_takeWhile_imp (List.mem_of_mem_take hd)⟩
    · simp at h

theorem itemAt_digit (ci : Bool) (s l : List Char) (h : itemAt ci s = some l) :
    ∃ c ∈ l, c.isDigit = true := by
  unfold itemAt at h
  cases hm1 : matchLit ci "MLM".data s with
  | none => rw [hm1] at h; simp at h
  | some pr =>
    obtain ⟨c1, r1⟩ := pr
    rw [hm1] at h
    dsimp only at h
    split at h
    · rename_i hlen
      simp at h
      subst h
      have hpos : 0 < ((r1.takeWhile Char.isDigit).take 15).length := by
        rw [List.length_take]
        omega
      have hne : (r1.takeWhile Char.isDigit).take 15 ≠ [] := List.length_pos.mp hpos
      obtain ⟨d, hd⟩ := List.exists_mem_of_ne_nil _ hne
      exact ⟨d, List.mem_append_right _ hd,
        List.mem_takeWhile_imp (List.mem_of_mem_take hd)⟩
    · simp at h

theorem searchUp_digit (ci : Bool) (s v : String) (h : searchUp ci s = some v) :
    ∃ c ∈ v.data, c.isDigit = true := by
  unfold searchUp at h
  cases hc : searchCap (upAt ci) s.data with
  | none => rw [hc] at h; simp at h
  | some l =>
    rw [hc] at h
    simp at h
    obtain ⟨t, ht⟩ := searchCap_exists _ _ _ hc
    have := upAt_digit ci t l ht
    rw [← h]
    exact this

theorem searchProduct_digit (ci : Bool) (s v : String)
    (h : searchProduct ci s = some v) : ∃ c ∈ v.data, c.isDigit = true := by
  unfold searchProduct at h
  cases hc : searchCap (productAt ci) s.data with
  | none => rw [hc] at h; simp at h
  | some l =>
    rw [hc] at h
    simp at h
    obtain ⟨t, ht⟩ := searchCap_exists _ _ _ hc
    have := productAt_digit ci t l ht
    rw [← h]
    exact this

theorem searchArticulo_digit (s v : String) (h : searchArticulo s = some v) :
    ∃ c ∈ v.data, c.isDigit = true := by
  unfold searchArticulo at h
  cases hc : searchCap articuloAt s.data with
  | none => rw [hc] at h; simp at h
  | some l =>
    rw [hc] at h
    simp at h
    obtain ⟨t, ht⟩ := searchCap_exists _ _ _ hc
    have := articuloAt_digit t l ht
    rw [← h]
    exact this

theorem searchItem_digit (ci : Bool) (s v : String) (h : searchItem ci s = some v) :
    ∃ c ∈ v.data, c.isDigit = true := by
  unfold searchItem at h
  cases hc : searchCap (itemAt ci) s.data with
  | none => rw [hc] at h; simp at h
  | some l =>
    rw [hc] at h
    simp at h
    obtain ⟨t, ht⟩ := searchCap_exists _ _ _ hc
    have := itemAt_digit ci t l ht
    rw [← h]
    exact this

theorem digit_not_ws {c : Char} (h : c.isDigit = true) : c.isWhitespace = false := by
  simp only [Char.isDigit, Bool.and_eq_true, decide_eq_true_eq] at h
  obtain ⟨h1, h2⟩ := h
  simp only [Char.isWhitespace, Bool.or_eq_false_iff, decide_eq_false_iff_not]
  refine ⟨⟨⟨?_, ?_⟩, ?_⟩, ?_⟩ <;>
    · intro hc
      subst hc
      revert h1 h2
      decide

theorem mem_data_ne_empty {s : String} {c : Char} (hc : c ∈ s.data) : s ≠ "" := by
  intro h
  rw [h] at hc
  simp at hc

theorem pyStrip_ne_empty {s : String} {c : Char} (hc : c ∈ s.data)
    (hw : c.isWhitespace = false) : pyStrip s ≠ "" := by
  intro h
  have h2 : ((s.data.dropWhile Char.isWhitespace).reverse.dropWhile
      Char.isWhitespace).reverse = [] := congrArg String.data h
  rw [List.reverse_eq_nil_iff, List.dropWhile_eq_nil_iff] at h2
  have hc1 : c ∈ s.data.dropWhile Char.isWhitespace := by
    have hsplit := List.takeWhile_append_dropWhile
      (p := Char.isWhitespace) (l := s.data)
    rcases List.mem_append.mp (by rw [hsplit]; exact hc) with h3 | h3
    · rw [List.mem_takeWhile_imp h3] at hw
      exact absurd hw (by simp)
    · exact h3
  have := h2 c (List.mem_reverse.mpr hc1)
  rw [this] at hw
  exact absurd hw (by simp)

theorem hexDigit_not_ws (n : Nat) (hn : n < 16) : (hexDigit n).isWhitespace = false := by
  interval_cases n <;> decide

theorem toHex8_not_ws (n : Nat) : ∀ c ∈ toHex8 n, c.isWhitespace = false := by
  intro c hc
  unfold toHex8 at hc
  simp only [List.mem_map, List.mem_range] at hc
  obtain ⟨i, _, rfl⟩ := hc
  exact hexDigit_not_ws _ (Nat.mod_lt _ (by norm_num))

theorem sha1Hex_not_ws (s : String) :
    ∀ c ∈ (sha1Hex s).data, c.isWhitespace = false := by
  intro c hc
  unfold sha1Hex at hc
  simp only [List.mem_append] at hc
  rcases hc with ((((h | h) | h) | h) | h) <;> exact toHex8_not_ws _ _ h

theorem pyStrip_sha1Hex_ne_empty (s : String) : pyStrip (sha1Hex s) ≠ "" := by
  have hlen : (sha1Hex s).data.length = 40 := sha1Hex_length s
  have hne : (sha1Hex s).data ≠ [] := by
    intro h
    rw [h] at hlen
    simp at hlen
  obtain ⟨c, hc⟩ := List.exists_mem_of_ne_nil _ hne
  exact pyStrip_ne_empty hc (sha1Hex_not_ws s c hc)

theorem pyStrip_ne_empty_of_digit {s : String} {c : Char} (hc : c ∈ s.data)
    (hd : c.isDigit = true) : pyStrip s ≠ "" :=
  pyStrip_ne_empty hc (digit_not_ws hd)

theorem itemAt_source_digit (ci : Bool) (w : List Char)
    (h : (itemAt ci w).isSome = true) : ∃ c ∈ w, c.isDigit = true := by
  unfold itemAt at h
  cases hm1 : matchLit ci "MLM".data w with
  | none => rw [hm1] at h; simp at h
  | some pr =>
    obtain ⟨c1, r1⟩ := pr
    rw [hm1] at h
    dsimp only at h
    split at h
    · rename_i hlen
      have hsub := matchLit_append ci _ _ _ _ hm1
      have hpos : 0 < (r1.takeWhile Char.isDigit).length := by omega
      obtain ⟨d, hd⟩ := List.exists_mem_of_ne_nil _ (List.length_pos.mp hpos)
      refine ⟨d, ?_, List.mem_takeWhile_imp hd⟩
      rw [hsub]
      exact List.mem_append_right _ ((List.takeWhile_sublist _).subset hd)
    · simp at h

theorem extract_ids_digit (pl : String) :
    (∀ p, (extract_ids pl).product_id = some p → ∃ c ∈ p.data, c.isDigit = true)
    ∧ (∀ u, (extract_ids pl).up_id = some u → ∃ c ∈ u.data, c.isDigit = true)
    ∧ (∀ i, (extract_ids pl).item_id = some i → ∃ c ∈ i.data, c.isDigit = true) := by
  unfold extract_ids
  split
  · simp
  · cases hu : searchUp false pl with
    | some u =>
      refine ⟨by simp, fun u' hu' => ?_, by simp⟩
      simp at hu'
      exact hu' ▸ searchUp_digit false pl u hu
    | none =>
      cases hp : searchProduct false pl with
      | some p =>
        refine ⟨fun p' hp' => ?_, by simp, by simp⟩
        simp at hp'
        exact hp' ▸ searchProduct_digit false pl p hp
      | none =>
        cases ha : searchArticulo pl with
        | some d =>
          refine ⟨by simp, by simp, fun i hi => ?_⟩
          simp at hi
          obtain ⟨c, hc, hcd⟩ := searchArticulo_digit pl d ha
          refine ⟨c, ?_, hcd⟩
          rw [← hi, String.data_append]
          exact List.mem_append_right _ hc
        | none =>
          cases hit : searchItem false pl with
          | some i =>
            refine ⟨by simp, by simp, fun i' hi' => ?_⟩
            simp at hi'
            exact hi' ▸ searchItem_digit false pl i hit
          | none =>
            cases hw : parseQsFirst (queryOf pl) "wid" with
            | some w =>
              by_cases hmatch : (itemAt false w.data).isSome = true
              · refine ⟨by simp [hmatch], by simp [hmatch], fun i' hi' => ?_⟩
                simp [hmatch] at hi'
                exact hi' ▸ itemAt_source_digit false w.data hmatch
              · simp at hmatch
                refine ⟨by simp [hmatch], by simp [hmatch], by simp [hmatch]⟩
            | none => simp

theorem transformKeyFallback_ne_empty (pl : String) :
    transformKeyFallback pl ≠ "" := by
  unfold transformKeyFallback
  cases hp : (extract_ids pl).product_id with
  | some p =>
    obtain ⟨c, hc, _⟩ := (extract_ids_digit pl).1 p hp
    simp only [hp]
    exact mem_data_ne_empty hc
  | none =>
    cases hu : (extract_ids pl).up_id with
    | some u =>
      obtain ⟨c, hc, _⟩ := (extract_ids_digit pl).2.1 u hu
      simp only [hp, hu]
      exact mem_data_ne_empty hc
    | none =>
      cases hi : (extract_ids pl).item_id with
      | some i =>
        obtain ⟨c, hc, _⟩ := (extract_ids_digit pl).2.2 i hi
        simp only [hp, hu, hi]
        exact mem_data_ne_empty hc
      | none =>
        simp only [hp, hu, hi]
        exact sha1Hex_ne_empty pl

/-! ## Claim theorems -/

/-- C1: step 3 of `export_sell_listings` (`diffStep`) computes the new set
as exactly the transformed listings whose `channelItemId` is not in the
existing-key set; it is a pure function, so re-running it on an unchanged
existing set and unchanged listings recomputes the same new set, and
re-running after the first run's upsert keys are added to the existing set
yields no listing at all — a retry performs no duplicate upserts.  The last
conjunct ties `diffStep` to `export_sell_listings`'s reported `new_count`. -/
theorem C1_diff_step_pure_idempotent :
    ∀ (existing_ids : List String) (sell_listings : List SellListing),
      (∀ sl, sl ∈ diffStep existing_ids sell_listings ↔
        sl ∈ sell_listings ∧ sl.channelItemId ∉ existing_ids)
      ∧ diffStep existing_ids sell_listings = diffStep existing_ids sell_listings
      ∧ diffStep (existing_ids ++ (diffStep existing_ids sell_listings).map
          SellListing.channelItemId) sell_listings = []
      ∧ (∀ (cards : List Card) (fx : ℚ) (now today : String)
          (attempt : Nat → Except String QueryData) (postResult : Except String Bool),
          (export_sell_listings cards fx now today attempt postResult).new_count =
            (diffStep (exportExistingIds attempt).1
              (transformAll now today fx cards).1).length) := by
  intro ex ls
  refine ⟨fun sl => ?_, rfl, ?_, fun cards fx now today att post => rfl⟩
  · simp [diffStep, List.mem_filter]
  · unfold diffStep
    rw [List.filter_eq_nil_iff]
    intro sl hsl
    simp only [List.mem_append, List.mem_map, decide_not, Bool.not_eq_true',
      decide_eq_false_iff_not, Decidable.not_not]
    by_cases hex : sl.channelItemId ∈ ex
    · exact Or.inl hex
    · refine Or.inr ⟨sl, ?_, rfl⟩
      simp [diffStep, List.mem_filter, hsl, hex]

theorem queryRetryLoop_all_fail (attempt : Nat → Except String QueryData)
    (hfail : ∀ i, ∃ e, attempt i = Except.error e) :
    ∀ (remaining i : Nat) (le : Option String),
      ∃ m, queryRetryLoop attempt i remaining le = Except.error m := by
  intro remaining
  induction remaining with
  | zero => intro i le; exact ⟨_, rfl⟩
  | succ k ih =>
    intro i le
    obtain ⟨e, he⟩ := hfail i
    simp only [queryRetryLoop, he]
    exact ih (i + 1) (some e)

/-- C9: when every attempt of the existing-listings query fails, the export
does not abort: `_query_existing_with_retry` raises, `export_sell_listings`
catches, proceeds with an empty existing set and `existing_count = 0`, and
every successfully transformed listing is treated as new. -/
theorem C9_query_degrades_to_empty :
    ∀ (cards : List Card) (fx : ℚ) (now today : String)
      (attempt : Nat → Except String QueryData) (postResult : Except String Bool),
      (∀ i, ∃ e, attempt i = Except.error e) →
      (∃ m, query_existing_with_retry attempt = Except.error m)
      ∧ (export_sell_listings cards fx now today attempt postResult).existing_count = 0
      ∧ (export_sell_listings cards fx now today attempt postResult).new_count =
          (transformAll now today fx cards).1.length := by
  intro cards fx now today attempt postResult hfail
  obtain ⟨m, hm⟩ := queryRetryLoop_all_fail attempt hfail 5 1 none
  have hq : query_existing_with_retry attempt = Except.error m := hm
  have hex : exportExistingIds attempt = ([], 0) := by
    unfold exportExistingIds
    rw [hq]
  refine ⟨⟨m, hq⟩, ?_, ?_⟩
  · show (exportExistingIds attempt).2 = 0
    rw [hex]
  · show (diffStep (exportExistingIds attempt).1 (transformAll now today fx cards).1).length = _
    rw [hex]
    simp [diffStep]

/-- The `last_error` value accumulated by the loop over a URL list. -/
def lastErrorAfter (fetch : String → FetchResult) :
    List String → Option String → Option String
  | [], le => le
  | u :: rest, le =>
    match fallbackStep fetch u le with
    | .inr _ => le
    | .inl le2 => lastErrorAfter fetch rest le2

theorem fallbackStep_not200 (fetch : String → FetchResult) (u : String)
    (le : Option String) (hu : ∀ b, fetch u ≠ FetchResult.resp 200 b) :
    ∃ le2, fallbackStep fetch u le = Sum.inl le2 := by
  unfold fallbackStep
  cases hf : fetch u with
  | resp s body =>
    dsimp only
    by_cases h200 : s = 200
    · exact absurd (h200 ▸ hf) (hu body)
    · rw [if_neg h200]
      by_cases h404 : s = 404
      · exact ⟨_, by rw [if_pos h404]⟩
      · rw [if_neg h404]
        by_cases hrange : 400 ≤ s ∧ s < 600
        · exact ⟨_, by rw [if_pos hrange]⟩
        · exact ⟨_, by rw [if_neg hrange]⟩
  | exc m => exact ⟨_, rfl⟩

theorem fallbackLoop_first_ok (fetch : String → FetchResult) :
    ∀ (pre : List String) (u : String) (post : List String) (b : String)
      (le : Option String),
      (∀ v ∈ pre, ∀ b2, fetch v ≠ FetchResult.resp 200 b2) →
      fetch u = FetchResult.resp 200 b →
      fallbackLoop fetch (pre ++ u :: post) le = Except.ok b := by
  intro pre
  induction pre with
  | nil =>
    intro u post b le _ hu
    simp only [List.nil_append, fallbackLoop]
    have hstep : fallbackStep fetch u le = Sum.inr b := by
      unfold fallbackStep
      rw [hu]
      simp
    rw [hstep]
  | cons v vs ih =>
    intro u post b le hpre hu
    simp only [List.cons_append, fallbackLoop]
    obtain ⟨le2, hle2⟩ := fallbackStep_not200 fetch v le (hpre v (by simp))
    rw [hle2]
    exact ih u post b le2 (fun w hw b2 => hpre w (by simp [hw]) b2) hu

theorem fallbackLoop_all_fail (fetch : String → FetchResult) :
    ∀ (urls : List String) (le : Option String),
      (∀ v ∈ urls, ∀ b, fetch v ≠ FetchResult.resp 200 b) →
      fallbackLoop fetch urls le =
        Except.error ("Failed to fetch from any URL. Last error: " ++
          (lastErrorAfter fetch urls le).getD "None") := by
  intro urls
  induction urls with
  | nil => intro le _; rfl
  | cons u rest ih =>
    intro le h
    obtain ⟨le2, hle2⟩ := fallbackStep_not200 fetch u le (h u (by simp))
    simp only [fallbackLoop, lastErrorAfter, hle2]
    exact ih le2 (fun w hw b2 => h w (by simp [hw]) b2)

/-- C10: `get_html_with_fallback` tries the primary URL and then each
fallback in order; any URL whose fetch is not a 200 (404s, other HTTP
errors, request exceptions) is passed over, and the body of the first 200
is returned.  Only when the whole list is exhausted does it raise, carrying
the last recorded error.  In particular a 404 on the primary and a 200 on a
fallback returns the fallback body without raising. -/
theorem C10_fallback_tries_in_order :
    ∀ (fetch : String → FetchResult) (url : String) (fallback_urls : List String),
      (∀ pre u post b, url :: fallback_urls = pre ++ u :: post →
        (∀ v ∈ pre, ∀ b2, fetch v ≠ FetchResult.resp 200 b2) →
        fetch u = FetchResult.resp 200 b →
        get_html_with_fallback fetch url fallback_urls = Except.ok b)
      ∧ ((∀ v ∈ url :: fallback_urls, ∀ b2, fetch v ≠ FetchResult.resp 200 b2) →
        get_html_with_fallback fetch url fallback_urls =
          Except.error ("Failed to fetch from any URL. Last error: " ++
            (lastErrorAfter fetch (url :: fallback_urls) none).getD "None"))
      ∧ (∀ (fb primaryBody fbBody : String),
          fallback_urls = [fb] →
          fetch url = FetchResult.resp 404 primaryBody →
          fetch fb = FetchResult.resp 200 fbBody →
          get_html_with_fallback fetch url fallback_urls = Except.ok fbBody) := by
  intro fetch url fallback_urls
  refine ⟨?_, ?_, ?_⟩
  · intro pre u post b hsplit hpre hu
    unfold get_html_with_fallback
    rw [hsplit]
    exact fallbackLoop_first_ok fetch pre u post b none hpre hu
  · intro hall
    unfold get_html_with_fallback
    exact fallbackLoop_all_fail fetch (url :: fallback_urls) none hall
  · intro fb primaryBody fbBody hfb h404 h200
    unfold get_html_with_fallback
    rw [hfb]
    have : url :: [fb] = [url] ++ fb :: [] := by simp
    rw [this]
    refine fallbackLoop_first_ok fetch [url] fb [] fbBody none ?_ h200
    intro v hv b2
    simp at hv
    subst hv
    rw [h404]
    simp

/-- Witness for C10: a primary returning 404 and one fallback returning
200 yield the fallback body. -/
theorem C10_fallback_tries_in_order_witness :
    get_html_with_fallback
      (fun u => if u = "https://p" then FetchResult.resp 404 "nf"
        else if u = "https://f" then FetchResult.resp 200 "BODY"
        else FetchResult.exc "unreachable")
      "https://p" ["https://f"] = Except.ok "BODY" :=
  (C10_fallback_tries_in_order
    (fun u => if u = "https://p" then FetchResult.resp 404 "nf"
      else if u = "https://f" then FetchResult.resp 200 "BODY"
      else FetchResult.exc "unreachable")
    "https://p" ["https://f"]).2.2 "https://f" "nf" "BODY" rfl (by decide) (by decide)

/-- Witness for C9: a concrete always-failing query oracle and one card. -/
theorem C9_query_degrades_to_empty_witness :
    (∃ m, query_existing_with_retry (fun _ => Except.error "http 500") =
      Except.error m)
    ∧ (export_sell_listings
        [{ permalink := some "https://www.mercadolibre.com.mx/p/MLM1054106937",
           title := some "iPhone 15 Pro", price_mxn := some 100 }]
        1 "2026-02-23T18:55:31Z" "2026-02-23"
        (fun _ => Except.error "http 500") (Except.ok true)).existing_count = 0
    ∧ (export_sell_listings
        [{ permalink := some "https://www.mercadolibre.com.mx/p/MLM1054106937",
           title := some "iPhone 15 Pro", price_mxn := some 100 }]
        1 "2026-02-23T18:55:31Z" "2026-02-23"
        (fun _ => Except.error "http 500") (Except.ok true)).new_count =
      (transformAll "2026-02-23T18:55:31Z" "2026-02-23" 1
        [{ permalink := some "https://www.mercadolibre.com.mx/p/MLM1054106937",
           title := some "iPhone 15 Pro", price_mxn := some 100 }]).1.length :=
  C9_query_degrades_to_empty _ _ _ _ _ _ (fun _ => ⟨"http 500", rfl⟩)

/-- The seven ordered checks of the eligibility filter, written from the
spec's description as (fires, code) pairs in evaluation order:
missing_title, missing_price, invalid_url, refurbished, bundle, carrier
lock, accessory. -/
def filterCheckList (title : String) (price_mxn : Option ℚ) (permalink : String)
    (allow_refurbished allow_bundles allow_locked : Bool) : List (Bool × String) :=
  [(chkMissingTitle title, "missing_title"),
   (chkMissingPrice price_mxn, "missing_price"),
   (chkInvalidUrl permalink, "invalid_url"),
   (chkKeyword allow_refurbished REFURBISHED_KEYWORDS title, "refurbished_not_allowed"),
   (chkKeyword allow_bundles BUNDLE_KEYWORDS title, "bundle_not_allowed"),
   (chkKeyword allow_locked LOCKED_KEYWORDS title, "carrier_locked_not_allowed"),
   (anyKeywordIn ACCESSORY_KEYWORDS (pyLower title), "accessory_only")]

/-- First-match-wins evaluation of the ordered check list: the first firing
check gives `(true, [its code])`, else `(false, [])`. -/
def classify_filter_firstMatch (title : String) (price_mxn : Option ℚ)
    (permalink : String) (allow_refurbished allow_bundles allow_locked : Bool) :
    Bool × List String :=
  match (filterCheckList title price_mxn permalink
      allow_refurbished allow_bundles allow_locked).find? Prod.fst with
  | some c => (true, [c.2])
  | none => (false, [])

/-- C8: `classify_filter` evaluates its checks in the fixed order
missing_title, missing_price, invalid_url, refurbished_not_allowed,
bundle_not_allowed, carrier_locked_not_allowed, accessory_only; the first
matching check returns immediately with `filtered_out = true` and that
single reason code, and when none fire the result is `(false, [])`. -/
theorem C8_filter_first_match_order :
    ∀ (title : String) (price_mxn : Option ℚ) (permalink : String)
      (allow_refurbished allow_bundles allow_locked : Bool),
      classify_filter title price_mxn permalink
        allow_refurbished allow_bundles allow_locked =
      classify_filter_firstMatch title price_mxn permalink
        allow_refurbished allow_bundles allow_locked := by
  intro t p pl ar ab al
  unfold classify_filter classify_filter_firstMatch filterCheckList
  by_cases h1 : chkMissingTitle t = true
  · simp [h1, List.find?]
  · rw [Bool.not_eq_true] at h1
    by_cases h2 : chkMissingPrice p = true
    · simp [h1, h2, List.find?]
    · rw [Bool.not_eq_true] at h2
      by_cases h3 : chkInvalidUrl pl = true
      · simp [h1, h2, h3, List.find?]
      · rw [Bool.not_eq_true] at h3
        by_cases h4 : chkKeyword ar REFURBISHED_KEYWORDS t = true
        · simp [h1, h2, h3, h4, List.find?]
        · rw [Bool.not_eq_true] at h4
          by_cases h5 : chkKeyword ab BUNDLE_KEYWORDS t = true
          · simp [h1, h2, h3, h4, h5, List.find?]
          · rw [Bool.not_eq_true] at h5
            by_cases h6 : chkKeyword al LOCKED_KEYWORDS t = true
            · simp [h1, h2, h3, h4, h5, h6, List.find?]
            · rw [Bool.not_eq_true] at h6
              by_cases h7 : anyKeywordIn ACCESSORY_KEYWORDS (pyLower t) = true
              · simp [h1, h2, h3, h4, h5, h6, h7, List.find?]
              · rw [Bool.not_eq_true] at h7
                simp [h1, h2, h3, h4, h5, h6, h7, List.find?]

/-- The number of identity fields set in an `IdsOut`. -/
def idCount (r : IdsOut) : Nat :=
  (if r.item_id.isSome then 1 else 0) + (if r.product_id.isSome then 1 else 0) +
    (if r.up_id.isSome then 1 else 0)

/-- The spec's description of identity extraction: check the five URL
shapes in the fixed priority unified `/up/` → catalog `/p/` → dashed
articulo → bare item token → `wid` query parameter, and stop at the first
match; no match at all yields the all-empty identity. -/
def extract_ids_firstShape (permalink : String) : IdsOut :=
  if permalink = "" then {}
  else if (searchUp false permalink).isSome then
    { up_id := searchUp false permalink, is_up_product := true }
  else if (searchProduct false permalink).isSome then
    { product_id := searchProduct false permalink, is_catalog_product := true }
  else if (searchArticulo permalink).isSome then
    { item_id := (searchArticulo permalink).map (fun d => "MLM" ++ d) }
  else if (searchItem false permalink).isSome then
    { item_id := searchItem false permalink }
  else
    match parseQsFirst (queryOf permalink) "wid" with
    | some w => if (itemAt false w.data).isSome then { item_id := some w } else {}
    | none => {}

/-- C7: `extract_ids` sets at most one of item_id/product_id/up_id and
follows the shape priority unified → catalog → dashed → bare → wid (first
conjunct: it equals the spec's first-match function).  A URL with a catalog
segment (and no unified segment) yields only `product_id` even when a bare
item token is also present, and a URL matching none of the five shapes
yields the all-empty identity. -/
theorem C7_extract_ids_shape_priority :
    ∀ permalink : String,
      extract_ids permalink = extract_ids_firstShape permalink
      ∧ idCount (extract_ids permalink) ≤ 1
      ∧ (searchUp false permalink = none →
         ∀ p, searchProduct false permalink = some p →
           (extract_ids permalink).product_id = some p
           ∧ (extract_ids permalink).item_id = none
           ∧ (extract_ids permalink).up_id = none)
      ∧ (searchUp false permalink = none → searchProduct false permalink = none →
         searchArticulo permalink = none → searchItem false permalink = none →
         parseQsFirst (queryOf permalink) "wid" = none →
         extract_ids permalink = {}) := by
  intro pl
  refine ⟨?_, ?_, ?_, ?_⟩
  · unfold extract_ids extract_ids_firstShape
    by_cases hpl : pl = ""
    · simp [hpl]
    · simp only [hpl, if_false]
      cases hu : searchUp false pl with
      | some u => simp
      | none =>
        simp only [Option.isSome_none, Bool.false_eq_true, if_false]
        cases hp : searchProduct false pl with
        | some p => simp
        | none =>
          simp only [Option.isSome_none, Bool.false_eq_true, if_false]
          cases ha : searchArticulo pl with
          | some d => simp
          | none =>
            simp only [Option.isSome_none, Bool.false_eq_true, if_false]
            cases hi : searchItem false pl with
            | some i => simp
            | none =>
              simp only [Option.isSome_none, Bool.false_eq_true, if_false]
  · unfold extract_ids
    by_cases hpl : pl = ""
    · simp [hpl, idCount]
    · simp only [hpl, if_false]
      cases hu : searchUp false pl with
      | some u => simp [idCount]
      | none =>
        cases hp : searchProduct false pl with
        | some p => simp [idCount]
        | none =>
          cases ha : searchArticulo pl with
          | some d => simp [idCount]
          | none =>
            cases hi : searchItem false pl with
            | some i => simp [idCount]
            | none =>
              cases hw : parseQsFirst (queryOf pl) "wid" with
              | some w =>
                by_cases hm : (itemAt false w.data).isSome = true
                · simp [hm, idCount]
                · simp only [Bool.not_eq_true] at hm
                  simp [hm, idCount]
              | none => simp [idCount]
  · intro hu p hp
    unfold extract_ids
    by_cases hpl : pl = ""
    · rw [hpl] at hp
      exact absurd hp (by simp [searchProduct, searchCap, productAt, matchLit])
    · simp [hpl, hu, hp]
  · intro hu hp ha hi hw
    unfold extract_ids
    by_cases hpl : pl = ""
    · simp [hpl]
    · simp [hpl, hu, hp, ha, hi, hw]

/-- Witness for C7: a URL with both a catalog segment and a bare item token
yields only `product_id`; a URL matching no shape yields the all-empty
identity. -/
theorem C7_extract_ids_shape_priority_witness :
    ((extract_ids "https://www.mercadolibre.com.mx/p/MLM1054106937/MLM4714040498").product_id
        = some "MLM1054106937"
      ∧ (extract_ids "https://www.mercadolibre.com.mx/p/MLM1054106937/MLM4714040498").item_id
        = none
      ∧ (extract_ids "https://www.mercadolibre.com.mx/p/MLM1054106937/MLM4714040498").up_id
        = none)
    ∧ extract_ids "https://example.com/item" = {} :=
  ⟨(C7_extract_ids_shape_priority
      "https://www.mercadolibre.com.mx/p/MLM1054106937/MLM4714040498").2.2.1
      (by decide) "MLM1054106937" (by decide),
   (C7_extract_ids_shape_priority "https://example.com/item").2.2.2
      (by decide) (by decide) (by decide) (by decide) (by decide)⟩

/-- C5: `transform_to_sell_listing` is total (the embedding is a total Lean
function; every fallible sub-step of the source is guarded) and for every
card and exchange rate it returns either a listing with no skip reason, or
no listing with exactly one of the six documented codes — no rejected input
is silently dropped. -/
theorem C5_transform_total_six_codes :
    ∀ (now today : String) (card : Card) (fx : ℚ),
      (∃ l, transform_to_sell_listing now today card fx = (some l, none))
      ∨ (∃ r, transform_to_sell_listing now today card fx = (none, some r)
          ∧ r ∈ skipCodes) := by
  intro now today card fx
  unfold transform_to_sell_listing
  dsimp only
  repeat' split
  all_goals first
    | exact Or.inl ⟨_, rfl⟩
    | exact Or.inr ⟨_, rfl, by
        simp [skipCodes, SKIP_MISSING_PERMALINK, SKIP_INVALID_PAYLOAD,
          SKIP_MISSING_PRICE, SKIP_INVALID_CURRENCY, SKIP_MISSING_IDENTITY,
          SKIP_NEEDS_ENRICHMENT]⟩

theorem gate_false_of_price (card : Card) (pr : ℚ)
    (h : pyOrQ card.price_mxn card.price = some pr) :
    compute_needs_enrichment card = false := by
  simp [compute_needs_enrichment, h]

/-- A card with a valid permalink and title but no price fields and no
attributes: the enrichment-completeness condition of C4 holds, yet the
transform rejects it earlier. -/
def c4card : Card :=
  { permalink := some "https://www.mercadolibre.com.mx/p/MLM1054106937",
    title := some "iPhone 15 Pro" }

/-- Counterexample to C4: a card whose JSON-LD metadata is absent and whose
price is absent (so `compute_needs_enrichment` is true) is rejected by
`transform_to_sell_listing` with `missing_price`, not
`needs_enrichment_true` — the price check precedes the enrichment gate. -/
theorem C4_counterexample :
    c4card.attributes = none
    ∧ pyOrQ c4card.price_mxn c4card.price = none
    ∧ compute_needs_enrichment c4card = true
    ∧ transform_to_sell_listing "2026-02-23T18:55:31Z" "2026-02-23" c4card 1 =
        (none, some SKIP_MISSING_PRICE)
    ∧ SKIP_MISSING_PRICE ≠ SKIP_NEEDS_ENRICHMENT := by
  refine ⟨rfl, rfl, rfl, by decide, by decide⟩

/-- C4 (amended): a card with absent JSON-LD metadata and absent price does
make `compute_needs_enrichment` return true (when its pipeline flag is not
explicitly False), but `transform_to_sell_listing` rejects any price-less
card with `missing_price` (or the earlier `missing_permalink` /
`invalid_payload`), and `needs_enrichment_true` is never returned by the
transform at all: its gate is only reached when a price is present, which
makes the gate false. -/
theorem C4_amended_price_gate_order :
    ∀ (now today : String) (card : Card) (fx : ℚ),
      (pyOrQ card.price_mxn card.price = none →
        ∃ r, transform_to_sell_listing now today card fx = (none, some r)
          ∧ r ∈ [SKIP_MISSING_PERMALINK, SKIP_INVALID_PAYLOAD, SKIP_MISSING_PRICE])
      ∧ (transform_to_sell_listing now today card fx).2 ≠ some SKIP_NEEDS_ENRICHMENT
      ∧ ((card.attributes.bind AttrDict.jsonld).map Jsonld.truthy ≠ some true →
          card.needs_enrichment ≠ some false →
          pyOrQ card.price_mxn card.price = none →
          compute_needs_enrichment card = true) := by
  intro now today card fx
  refine ⟨?_, ?_, ?_⟩
  · intro hpr
    unfold transform_to_sell_listing
    dsimp only
    split
    · exact ⟨_, rfl, by simp⟩
    · split
      · exact ⟨_, rfl, by simp⟩
      · rw [hpr]
        exact ⟨_, rfl, by simp⟩
  · unfold transform_to_sell_listing
    dsimp only
    split
    · simp [SKIP_MISSING_PERMALINK, SKIP_NEEDS_ENRICHMENT]
    · split
      · simp [SKIP_INVALID_PAYLOAD, SKIP_NEEDS_ENRICHMENT]
      · cases hpr : pyOrQ card.price_mxn card.price with
        | none => simp [SKIP_MISSING_PRICE, SKIP_NEEDS_ENRICHMENT]
        | some pr =>
          dsimp only
          split
          · simp [SKIP_MISSING_PRICE, SKIP_NEEDS_ENRICHMENT]
          · split
            · simp [SKIP_INVALID_CURRENCY, SKIP_NEEDS_ENRICHMENT]
            · split <;>
              · split
                · simp [SKIP_MISSING_IDENTITY, SKIP_NEEDS_ENRICHMENT]
                · rw [gate_false_of_price card pr hpr]
                  simp
  · intro hjs hflag hpr
    have h1 : ((card.attributes.bind AttrDict.jsonld).map Jsonld.truthy).getD false
        = false := by
      cases hmj : (card.attributes.bind AttrDict.jsonld).map Jsonld.truthy with
      | none => rfl
      | some b =>
        cases b with
        | true => exact absurd hmj hjs
        | false => rfl
    unfold compute_needs_enrichment
    rw [h1]
    simp only [Bool.false_eq_true, if_false]
    rw [if_neg hflag, hpr]
    simp

/-- Witness for the amended C4 at a concrete metadata-less, price-less
card. -/
theorem C4_amended_price_gate_order_witness :
    (∃ r, transform_to_sell_listing "2026-02-23T18:55:31Z" "2026-02-23" c4card 1 =
        (none, some r)
      ∧ r ∈ [SKIP_MISSING_PERMALINK, SKIP_INVALID_PAYLOAD, SKIP_MISSING_PRICE])
    ∧ compute_needs_enrichment c4card = true :=
  ⟨(C4_amended_price_gate_order "2026-02-23T18:55:31Z" "2026-02-23" c4card 1).1 rfl,
   (C4_amended_price_gate_order "2026-02-23T18:55:31Z" "2026-02-23" c4card 1).2.2
     (by decide) (by decide) rfl⟩

/-- A card whose stored channel key does not match the identity derivable
from its permalink, but whose `id_source` is one of the known values. -/
def c6card : Card :=
  { permalink := some "https://www.mercadolibre.com.mx/p/MLM1054106937",
    title := some "iPhone 15 Pro",
    channel_item_id := some "MLM9999999999",
    id_source := some "item_id",
    price_mxn := some 100 }

/-- Counterexample to C6: the stored channel key `MLM9999999999` does not
match the key `MLM1054106937` derivable from the card's permalink, yet
`transform_to_sell_listing` keeps the stored key — it does not re-resolve
from the permalink, because the trust test looks only at `id_source`. -/
theorem C6_counterexample :
    ((transform_to_sell_listing "2026-02-23T18:55:31Z" "2026-02-23" c6card 1).1.map
        SellListing.channelItemId = some "MLM9999999999")
    ∧ (compute_channel_item_id
        (extract_ids "https://www.mercadolibre.com.mx/p/MLM1054106937").item_id
        (extract_ids "https://www.mercadolibre.com.mx/p/MLM1054106937").product_id
        (extract_ids "https://www.mercadolibre.com.mx/p/MLM1054106937").up_id
        "https://www.mercadolibre.com.mx/p/MLM1054106937").1 = "MLM1054106937"
    ∧ ("MLM9999999999" : String) ≠ "MLM1054106937" :=
  ⟨by decide, by decide, by decide⟩

/-- C6 (amended): the channel key of every accepted card is non-empty, and
`missing_identity` is never actually returned: a key is re-derived from the
permalink only when the stored key is empty or its `id_source` (defaulting
to `hash`) is unknown, and since the transform requires a non-empty
permalink the re-derived key (a known id or a SHA-1 digest) is never empty.
A stored non-empty key with a known `id_source` is trusted as-is — no
comparison against the identity derivable from the permalink is made. -/
theorem C6_amended_key_nonempty_trust :
    ∀ (now today : String) (card : Card) (fx : ℚ),
      (∀ l r, transform_to_sell_listing now today card fx = (some l, r) →
        l.channelItemId ≠ "")
      ∧ (trustsPrecomputed card = true →
          (extract_identity card).channel_item_id =
            pyStrip (card.channel_item_id.getD ""))
      ∧ (transform_to_sell_listing now today card fx).2 ≠ some SKIP_MISSING_IDENTITY := by
  intro now today card fx
  refine ⟨?_, ?_, ?_⟩
  · intro l r hl
    unfold transform_to_sell_listing at hl
    dsimp only at hl
    split at hl
    · simp at hl
    · split at hl
      · simp at hl
      · cases hpr : pyOrQ card.price_mxn card.price with
        | none => rw [hpr] at hl; simp at hl
        | some pr =>
          rw [hpr] at hl
          dsimp only at hl
          split at hl
          · simp at hl
          · split at hl
            · simp at hl
            · split at hl
              · split at hl
                · simp at hl
                · split at hl
                  · simp at hl
                  · simp only [Prod.mk.injEq, Option.some.injEq] at hl
                    obtain ⟨hl1, -⟩ := hl
                    rw [← hl1]
                    exact transformKeyFallback_ne_empty _
              · split at hl
                · simp at hl
                · split at hl
                  · simp at hl
                  · rename_i hkey hgate
                    simp only [Prod.mk.injEq, Option.some.injEq] at hl
                    obtain ⟨hl1, -⟩ := hl
                    rw [← hl1]
                    exact hkey
  · intro htrust
    unfold trustsPrecomputed at htrust
    dsimp only at htrust
    unfold extract_identity
    dsimp only
    rw [if_pos (of_decide_eq_true htrust)]
  · intro hcontra
    unfold transform_to_sell_listing at hcontra
    dsimp only at hcontra
    repeat' split at hcontra
    all_goals
      try simp [SKIP_MISSING_PERMALINK, SKIP_INVALID_PAYLOAD, SKIP_MISSING_PRICE,
        SKIP_INVALID_CURRENCY, SKIP_MISSING_IDENTITY, SKIP_NEEDS_ENRICHMENT] at hcontra
    · exact absurd (by assumption : transformKeyFallback (resolvePermalink card) = "")
        (transformKeyFallback_ne_empty _)
    · tauto

/-- Witness for the amended C6: the concrete stale-key card is trusted
(its stored key is kept verbatim) and the transform does not return
`missing_identity` on it. -/
theorem C6_amended_key_nonempty_trust_witness :
    (extract_identity c6card).channel_item_id = pyStrip (c6card.channel_item_id.getD "")
    ∧ (transform_to_sell_listing "2026-02-23T18:55:31Z" "2026-02-23" c6card 1).2 ≠
        some SKIP_MISSING_IDENTITY :=
  ⟨(C6_amended_key_nonempty_trust "2026-02-23T18:55:31Z" "2026-02-23" c6card 1).2.1
      (by decide),
   (C6_amended_key_nonempty_trust "2026-02-23T18:55:31Z" "2026-02-23" c6card 1).2.2⟩

/-- Generic first-truthy key derivation over a priority list of
(value, source-name) pairs, with the common SHA-1-of-permalink fallback
(and the empty key for an empty permalink). -/
def keyByPriority : List (Option String × String) → String → String × String
  | [], pl => if pl ≠ "" then (sha1Hex pl, "hash") else ("", "hash")
  | (v, src) :: rest, pl =>
    if strTruthy v then (v.getD "", src) else keyByPriority rest pl

/-- A card carrying both a pre-extracted `item_id` and `up_id` (and no
stored channel key), on which the two key-derivation functions disagree. -/
def c2card : Card :=
  { permalink := some "https://x.mercadolibre.com.mx/foo",
    item_id := some "MLM4714040498",
    up_id := some "MLMU3779491406" }

/-- Counterexample to C2: on the identity (item_id = MLM4714040498,
product_id = none, up_id = MLMU3779491406), `compute_channel_item_id`
(parsers.py) picks the item_id — the claimed product → item → up priority —
but the recompute branch of `extract_identity` (export_sell_listings.py)
picks the up_id: the claimed priority does not hold for every
key-derivation function in the program. -/
theorem C2_counterexample :
    compute_channel_item_id c2card.item_id c2card.product_id c2card.up_id
      "https://x.mercadolibre.com.mx/foo" = ("MLM4714040498", "item_id")
    ∧ (extract_identity c2card).channel_item_id = "MLMU3779491406"
    ∧ (extract_identity c2card).id_source = "up_id"
    ∧ ("MLMU3779491406" : String) ≠ "MLM4714040498" :=
  ⟨by decide, by decide, by decide, by decide⟩

/-- C2 (amended): each key-derivation function is pure and deterministic
and follows a first-non-empty priority with SHA-1-of-permalink fallback,
but the priority differs per function: `compute_channel_item_id`
(parsers.py) uses product_id → item_id → up_id; the recompute branch of
`extract_identity` (entered exactly when the stored key is not trusted)
uses product_id → up_id → item_id over the identity fields; and
`parse_channel_item_id` uses the URL-shape order catalog `/p/` → unified
`/up/` → dashed articulo → bare item → SHA-1, returning only the key. -/
theorem C2_amended_per_function_priority :
    (∀ (item_id product_id up_id : Option String) (permalink : String),
      compute_channel_item_id item_id product_id up_id permalink =
        keyByPriority [(product_id, "product_id"), (item_id, "item_id"),
          (up_id, "up_id")] permalink)
    ∧ (∀ card : Card, trustsPrecomputed card = false →
        ((extract_identity card).channel_item_id,
          (extract_identity card).id_source) =
          keyByPriority [((identityFields card).1, "product_id"),
            ((identityFields card).2.1, "up_id"),
            ((identityFields card).2.2, "item_id")]
            (pyStrip (card.permalink.getD "")))
    ∧ (∀ permalink : String, permalink ≠ "" →
        parse_channel_item_id permalink =
          (keyByPriority [(searchProduct true permalink, "product_id"),
            (searchUp true permalink, "up_id"),
            ((searchArticulo permalink).map (fun d => "MLM" ++ d), "item_id"),
            (searchItem true permalink, "item_id")] permalink).1) := by
  refine ⟨?_, ?_, ?_⟩
  · intro i p u pl
    rfl
  · intro card htrust
    unfold trustsPrecomputed at htrust
    dsimp only at htrust
    unfold extract_identity
    dsimp only
    rw [if_neg (of_decide_eq_false htrust)]
    rfl
  · intro pl hpl
    unfold parse_channel_item_id
    rw [if_neg hpl]
    cases hp : searchProduct true pl with
    | some p =>
      have hne : p ≠ "" := by
        obtain ⟨c, hc, -⟩ := searchProduct_digit true pl p hp
        exact mem_data_ne_empty hc
      simp [keyByPriority, strTruthy, hne]
    | none =>
      simp only [keyByPriority, strTruthy, Option.getD_none, ne_eq,
        not_true_eq_false, decide_False, Bool.false_eq_true, if_false]
      cases hu : searchUp true pl with
      | some u =>
        have hne : u ≠ "" := by
          obtain ⟨c, hc, -⟩ := searchUp_digit true pl u hu
          exact mem_data_ne_empty hc
        simp [keyByPriority, strTruthy, hne]
      | none =>
        simp only [keyByPriority, strTruthy, Option.getD_none, ne_eq,
          not_true_eq_false, decide_False, Bool.false_eq_true, if_false]
        cases ha : searchArticulo pl with
        | some d =>
          have hne : ("MLM" ++ d) ≠ "" := by
            refine mem_data_ne_empty (c := 'M') ?_
            rw [String.data_append]
            exact List.mem_append_left _ (by decide)
          simp [keyByPriority, strTruthy, hne]
        | none =>
          simp only [Option.map_none, keyByPriority, strTruthy, Option.getD_none,
            ne_eq, not_true_eq_false, decide_False, Bool.false_eq_true, if_false]
          cases hi : searchItem true pl with
          | some i =>
            have hne : i ≠ "" := by
              obtain ⟨c, hc, -⟩ := searchItem_digit true pl i hi
              exact mem_data_ne_empty hc
            simp [keyByPriority, strTruthy, hne]
          | none =>
            simp [keyByPriority, strTruthy, hpl]

/-- Witness for the amended C2 at concrete inputs: the untrusted-card
recompute equation at `c2card`, and the `parse_channel_item_id` shape
priority at a catalog URL. -/
theorem C2_amended_per_function_priority_witness :
    ((extract_identity c2card).channel_item_id,
      (extract_identity c2card).id_source) =
      keyByPriority [((identityFields c2card).1, "product_id"),
        ((identityFields c2card).2.1, "up_id"),
        ((identityFields c2card).2.2, "item_id")]
        (pyStrip (c2card.permalink.getD ""))
    ∧ parse_channel_item_id "https://www.mercadolibre.com.mx/p/MLM1054106937" =
        (keyByPriority
          [(searchProduct true "https://www.mercadolibre.com.mx/p/MLM1054106937",
            "product_id"),
           (searchUp true "https://www.mercadolibre.com.mx/p/MLM1054106937", "up_id"),
           ((searchArticulo "https://www.mercadolibre.com.mx/p/MLM1054106937").map
             (fun d => "MLM" ++ d), "item_id"),
           (searchItem true "https://www.mercadolibre.com.mx/p/MLM1054106937",
            "item_id")]
          "https://www.mercadolibre.com.mx/p/MLM1054106937").1 :=
  ⟨C2_amended_per_function_priority.2.1 c2card (by decide),
   C2_amended_per_function_priority.2.2
     "https://www.mercadolibre.com.mx/p/MLM1054106937" (by decide)⟩

/-- A permalink matching both the unified `/up/` and the catalog `/p/`
shape: `extract_ids` (assembly side) takes the unified shape first, while
`parse_channel_item_id` (export side) takes the catalog shape first. -/
def c3permalink : String :=
  "https://www.mercadolibre.com.mx/up/MLMU3779491406/p/MLM1054106937"

/-- The card assembled from `c3permalink`; `transform_to_sell_listing`
accepts it. -/
def c3card : Card :=
  assemble_card c3permalink "iPhone 15 Pro" (some 100) "MXN" none false false false

/-- Counterexample to C3: a card produced by `assemble_card` and accepted
by `transform_to_sell_listing` whose listing's channel key is the unified
id `MLMU3779491406`, while re-extracting from the listing's permalink with
`parse_channel_item_id` returns the catalog id `MLM1054106937`. -/
theorem C3_counterexample :
    (transform_to_sell_listing "2026-02-23T18:55:31Z" "2026-02-23" c3card 1).2 = none
    ∧ ((transform_to_sell_listing "2026-02-23T18:55:31Z" "2026-02-23" c3card 1).1.map
        SellListing.channelItemId) = some "MLMU3779491406"
    ∧ ((transform_to_sell_listing "2026-02-23T18:55:31Z" "2026-02-23" c3card 1).1.map
        (fun l => parse_channel_item_id l.permalink)) = some "MLM1054106937"
    ∧ ("MLMU3779491406" : String) ≠ "MLM1054106937" :=
  ⟨by decide, by decide, by decide, by decide⟩

theorem extract_identity_trusted (card : Card)
    (h : trustsPrecomputed card = true) :
    (extract_identity card).channel_item_id =
      pyStrip (card.channel_item_id.getD "") := by
  unfold trustsPrecomputed at h
  dsimp only at h
  unfold extract_identity
  dsimp only
  rw [if_pos (of_decide_eq_true h)]

theorem cci_src_cases (i p u : Option String) (pl : String) :
    (compute_channel_item_id i p u pl).2 ∈
      (["product_id", "up_id", "item_id", "hash"] : List String) := by
  unfold compute_channel_item_id
  split_ifs <;> simp

theorem assembled_key_strip_ne (pl : String) (hs : pl ≠ "") :
    pyStrip (compute_channel_item_id (extract_ids pl).item_id
      (extract_ids pl).product_id (extract_ids pl).up_id pl).1 ≠ "" := by
  unfold compute_channel_item_id
  split_ifs with h1 h2 h3
  · cases hp : (extract_ids pl).product_id with
    | none => rw [hp] at h1; simp [strTruthy] at h1
    | some p =>
      obtain ⟨c, hc, hd⟩ := (extract_ids_digit pl).1 p hp
      exact pyStrip_ne_empty_of_digit (s := p) hc hd
  · cases hi : (extract_ids pl).item_id with
    | none => rw [hi] at h2; simp [strTruthy] at h2
    | some i =>
      obtain ⟨c, hc, hd⟩ := (extract_ids_digit pl).2.2 i hi
      exact pyStrip_ne_empty_of_digit (s := i) hc hd
  · cases hu : (extract_ids pl).up_id with
    | none => rw [hu] at h3; simp [strTruthy] at h3
    | some u =>
      obtain ⟨c, hc, hd⟩ := (extract_ids_digit pl).2.1 u hu
      exact pyStrip_ne_empty_of_digit (s := u) hc hd
  · exact pyStrip_sha1Hex_ne_empty pl

theorem pyOr_hash_strip_mem (src : String)
    (h : src ∈ (["product_id", "up_id", "item_id", "hash"] : List String)) :
    pyStrip ((pyOrStr (some src) (some "hash")).getD "hash") ∈
      (["product_id", "up_id", "item_id", "hash"] : List String) := by
  fin_cases h <;> decide

theorem transform_accepted_fields (now today : String) (card : Card) (fx : ℚ)
    (l : SellListing) (r : Option String)
    (hl : transform_to_sell_listing now today card fx = (some l, r))
    (hkeyne : (extract_identity card).channel_item_id ≠ "") :
    l.channelItemId = (extract_identity card).channel_item_id
    ∧ l.permalink = resolvePermalink card := by
  unfold transform_to_sell_listing at hl
  dsimp only at hl
  repeat' split at hl
  all_goals
    first
      | (simp at hl; done)
      | exact absurd (by assumption :
          (extract_identity card).channel_item_id = "" ∧ resolvePermalink card ≠ "")
          (fun hc => hkeyne hc.1)
      | (simp only [Prod.mk.injEq, Option.some.injEq] at hl
         obtain ⟨hl1, -⟩ := hl
         rw [← hl1]
         exact ⟨rfl, rfl⟩)

/-- C3 (amended): `transform_to_sell_listing` preserves an assembled card's
channel key (the stored key is trusted, stripped verbatim) and its
fragment-stripped permalink, so the round trip holds exactly when
`parse_channel_item_id` of that permalink agrees with the assembled key —
true for canonical single-shape URLs, but violated e.g. when the permalink
matches both the `/up/` and the `/p/` shape, since the export-side re-parse
checks the catalog shape first while assembly-side extraction checks the
unified shape first. -/
theorem C3_roundtrip_amended :
    ∀ (pl title : String) (price : Option ℚ) (cur : String) (seller : Option Int)
      (ar ab al : Bool) (now today : String) (fx : ℚ) (l : SellListing)
      (r : Option String),
      transform_to_sell_listing now today
        (assemble_card pl title price cur seller ar ab al) fx = (some l, r) →
      pyStrip (String.mk (pl.data.takeWhile (· ≠ '#'))) ≠ "" →
      parse_channel_item_id (pyStrip (String.mk (pl.data.takeWhile (· ≠ '#')))) =
        pyStrip ((assemble_card pl title price cur seller ar ab al).channel_item_id.getD "") →
      l.channelItemId = parse_channel_item_id l.permalink := by
  intro pl title price cur seller ar ab al now today fx l r hl hperm hagree
  have hs0 : String.mk (pl.data.takeWhile (· ≠ '#')) ≠ "" := fun h => hperm (by rw [h]; decide)
  have hpl : pl ≠ "" := fun h => hs0 (by rw [h]; decide)
  have hkeyne : pyStrip ((assemble_card pl title price cur seller ar ab al).channel_item_id.getD "") ≠ "" :=
    assembled_key_strip_ne pl hpl
  have htrust : trustsPrecomputed (assemble_card pl title price cur seller ar ab al) = true := by
    unfold trustsPrecomputed
    dsimp only
    apply decide_eq_true
    constructor
    · exact hkeyne
    · exact pyOr_hash_strip_mem _ (cci_src_cases (extract_ids pl).item_id
        (extract_ids pl).product_id (extract_ids pl).up_id pl)
  have hkey := extract_identity_trusted _ htrust
  have hres : resolvePermalink (assemble_card pl title price cur seller ar ab al) =
      pyStrip (String.mk (pl.data.takeWhile (· ≠ '#'))) := by
    unfold resolvePermalink
    dsimp only
    have hchain : pyOrStr (pyOrStr (pyOrStr
        (assemble_card pl title price cur seller ar ab al).permalink
        (assemble_card pl title price cur seller ar ab al).url)
        (assemble_card pl title price cur seller ar ab al).item_url)
        (assemble_card pl title price cur seller ar ab al).detail_url =
        some (String.mk (pl.data.takeWhile (· ≠ '#'))) := by
      show pyOrStr (pyOrStr (pyOrStr
        (some (String.mk (pl.data.takeWhile (· ≠ '#')))) none) none) none = _
      unfold pyOrStr
      dsimp only
      rw [if_neg hs0]
      dsimp only
      rw [if_neg hs0]
      dsimp only
      rw [if_neg hs0]
    rw [hchain]
    simp only [Option.getD_some]
    rw [if_neg hperm]
  have hfields := transform_accepted_fields now today _ fx l r hl (by rw [hkey]; exact hkeyne)
  rw [hfields.1, hkey, hfields.2, hres]
  exact hagree.symm

/-- Witness for the amended C3: for the canonical catalog URL the accepted
listing's channel key equals the re-extracted key. -/
theorem C3_roundtrip_amended_witness :
    ((transform_to_sell_listing "2026-02-23T18:55:31Z" "2026-02-23"
        (assemble_card "https://www.mercadolibre.com.mx/p/MLM1054106937"
          "iPhone 15 Pro" (some 100) "MXN" none false false false) 1).1.map
      SellListing.channelItemId) =
      ((transform_to_sell_listing "2026-02-23T18:55:31Z" "2026-02-23"
        (assemble_card "https://www.mercadolibre.com.mx/p/MLM1054106937"
          "iPhone 15 Pro" (some 100) "MXN" none false false false) 1).1.map
        (fun l => parse_channel_item_id l.permalink)) := by
  cases htr : (transform_to_sell_listing "2026-02-23T18:55:31Z" "2026-02-23"
      (assemble_card "https://www.mercadolibre.com.mx/p/MLM1054106937"
        "iPhone 15 Pro" (some 100) "MXN" none false false false) 1) with
  | mk o r =>
    cases o with
    | none => simp
    | some l =>
      have hround := C3_roundtrip_amended
        "https://www.mercadolibre.com.mx/p/MLM1054106937" "iPhone 15 Pro"
        (some 100) "MXN" none false false false
        "2026-02-23T18:55:31Z" "2026-02-23" 1 l r htr (by decide) (by decide)
      simp [hround]
